import Mathlib

/-!
Verification of the content ingestion, scoring, reranking and safety-limit
pipeline of the AutoVanityFair repository.

The Python sources are shallowly embedded: pure functions become Lean
functions over `ℚ`, `String` and `List`; stateful objects (`RateLimiter`,
`SafetyMonitor`, the SQLite store) become explicit state-passing functions.
Machine floats are modelled as exact rationals; Python's `round(x, n)`
(round-half-to-even) is modelled by `pyRound`.
-/

namespace AutoVanityFair

/-! ### Python rounding

`round(x, nd)` in Python rounds half to even.  `roundHalfToEven` models the
integer rounding, `pyRound nd` the `nd`-digit version. -/
def roundHalfToEven (x : ℚ) : ℤ :=
  if x - (⌊x⌋ : ℚ) < 1/2 then ⌊x⌋
  else if 1/2 < x - (⌊x⌋ : ℚ) then ⌊x⌋ + 1
  else if 2 ∣ ⌊x⌋ then ⌊x⌋ else ⌊x⌋ + 1

def pyRound (nd : ℕ) (x : ℚ) : ℚ :=
  (roundHalfToEven (x * (10 : ℚ) ^ nd) : ℚ) / (10 : ℚ) ^ nd

/-! ### RateLimiter (src/core/rate_limiter.py)

A sliding-window limiter.  `_timestamps` is the mutable list of action
times; `_prune` keeps only timestamps strictly newer than `now - window`.
Methods that mutate in Python return the new state here. -/
structure RateLimiter where
  max_actions : ℤ
  window_seconds : ℚ
  timestamps : List ℚ
deriving Repr, DecidableEq

namespace RateLimiter

/-- `RateLimiter._prune`: keep `t` with `t > now - window_seconds`. -/
def prune (rl : RateLimiter) (now : ℚ) : RateLimiter :=
  { rl with timestamps := rl.timestamps.filter (fun t => now - rl.window_seconds < t) }

/-- `RateLimiter.can_act`: prune, then compare the window count to the cap. -/
def canAct (rl : RateLimiter) (now : ℚ) : Bool × RateLimiter :=
  let rl := rl.prune now
  (decide ((rl.timestamps.length : ℤ) < rl.max_actions), rl)

/-- `RateLimiter.record`: append the current time (no pruning). -/
def record (rl : RateLimiter) (now : ℚ) : RateLimiter :=
  { rl with timestamps := rl.timestamps ++ [now] }

/-- `RateLimiter.remaining`: prune, then `max(0, max_actions - len)`. -/
def remaining (rl : RateLimiter) (now : ℚ) : ℤ × RateLimiter :=
  let rl := rl.prune now
  (max 0 (rl.max_actions - rl.timestamps.length), rl)

/-- The number of timestamps inside the window at time `now`. -/
def windowCount (rl : RateLimiter) (now : ℚ) : ℕ :=
  (rl.timestamps.filter (fun t => now - rl.window_seconds < t)).length

end RateLimiter

/-! ### SafetyMonitor (src/core/safety_monitor.py)

Wraps three rate limiters plus error/success time lists and an optional
cooldown deadline.  Each public method takes the current wall-clock time
`now` (Python reads `time.time()`; the method body is atomic under the
monitor's lock, so a single instant per call is used). -/
structure SafetyMonitor where
  hourly_limit : ℤ := 8
  daily_limit : ℤ := 30
  weekly_limit : ℤ := 150
  error_rate_threshold : ℚ := 3/10
  error_window_seconds : ℚ := 3600
  cooldown_minutes : ℚ := 30
  hourly : RateLimiter
  daily : RateLimiter
  weekly : RateLimiter
  errors : List ℚ
  successes : List ℚ
  cooldown_until : Option ℚ
deriving Repr, DecidableEq

namespace SafetyMonitor

/-- `SafetyMonitor.__post_init__`: fresh limiters, empty event lists. -/
def init (hourly_limit daily_limit weekly_limit : ℤ)
    (error_rate_threshold : ℚ) (error_window_seconds : ℚ)
    (cooldown_minutes : ℚ) : SafetyMonitor :=
  { hourly_limit := hourly_limit
    daily_limit := daily_limit
    weekly_limit := weekly_limit
    error_rate_threshold := error_rate_threshold
    error_window_seconds := error_window_seconds
    cooldown_minutes := cooldown_minutes
    hourly := ⟨hourly_limit, 3600, []⟩
    daily := ⟨daily_limit, 86400, []⟩
    weekly := ⟨weekly_limit, 604800, []⟩
    errors := []
    successes := []
    cooldown_until := none }

/-- Python truthiness of `self._cooldown_until and now < self._cooldown_until`:
`None` and `0.0` are both falsy. -/
def cooldownActive (cu : Option ℚ) (now : ℚ) : Bool :=
  match cu with
  | none => false
  | some c => decide (c ≠ 0) && decide (now < c)

/-- `SafetyMonitor._prune_window`: keep `t > now - error_window_seconds`. -/
def pruneWindow (m : SafetyMonitor) (ts : List ℚ) (now : ℚ) : List ℚ :=
  ts.filter (fun t => now - m.error_window_seconds < t)

/-- `SafetyMonitor._current_error_rate`: prune both lists (storing them back)
and return `errors / (errors + successes)`, `0` when both empty. -/
def currentErrorRate (m : SafetyMonitor) (now : ℚ) : ℚ × SafetyMonitor :=
  let errs := m.pruneWindow m.errors now
  let succ := m.pruneWindow m.successes now
  let rate : ℚ :=
    if errs.length + succ.length = 0 then 0
    else (errs.length : ℚ) / ((errs.length : ℚ) + (succ.length : ℚ))
  (rate, { m with errors := errs, successes := succ })

/-- `SafetyMonitor.can_act`.  Returns the boolean result and the state after
the call (limiter pruning, error-list pruning and a possible new cooldown). -/
def canAct (m : SafetyMonitor) (now : ℚ) : Bool × SafetyMonitor :=
  if cooldownActive m.cooldown_until now then (false, m)
  else
    let hres := m.hourly.canAct now
    let m1 := { m with hourly := hres.2 }
    if !hres.1 then (false, m1)
    else
      let dres := m1.daily.canAct now
      let m2 := { m1 with daily := dres.2 }
      if !dres.1 then (false, m2)
      else
        let wres := m2.weekly.canAct now
        let m3 := { m2 with weekly := wres.2 }
        if !wres.1 then (false, m3)
        else
          let eres := m3.currentErrorRate now
          let m4 := eres.2
          if m4.error_rate_threshold < eres.1 then
            (false, { m4 with cooldown_until := some (now + m4.cooldown_minutes * 60) })
          else (true, m4)

/-- `SafetyMonitor.record_action`: one slot in all three windows, success list. -/
def recordAction (m : SafetyMonitor) (now : ℚ) : SafetyMonitor :=
  { m with
    hourly := m.hourly.record now
    daily := m.daily.record now
    weekly := m.weekly.record now
    successes := m.successes ++ [now] }

/-- `SafetyMonitor.record_error`: one slot in all three windows, error list. -/
def recordError (m : SafetyMonitor) (now : ℚ) : SafetyMonitor :=
  { m with
    hourly := m.hourly.record now
    daily := m.daily.record now
    weekly := m.weekly.record now
    errors := m.errors ++ [now] }

/-- The record returned by `SafetyMonitor.get_stats`. -/
structure Stats where
  hourly_remaining : ℤ
  daily_remaining : ℤ
  weekly_remaining : ℤ
  error_rate : ℚ
  in_cooldown : Bool
deriving Repr, DecidableEq

/-- `SafetyMonitor.get_stats`: remaining counts (pruning each limiter), the
rounded error rate (pruning the event lists) and the cooldown flag
(`cooldown_until is not None and now < cooldown_until`). -/
def getStats (m : SafetyMonitor) (now : ℚ) : Stats × SafetyMonitor :=
  let hres := m.hourly.remaining now
  let m1 := { m with hourly := hres.2 }
  let dres := m1.daily.remaining now
  let m2 := { m1 with daily := dres.2 }
  let wres := m2.weekly.remaining now
  let m3 := { m2 with weekly := wres.2 }
  let eres := m3.currentErrorRate now
  let m4 := eres.2
  ({ hourly_remaining := hres.1
     daily_remaining := dres.1
     weekly_remaining := wres.1
     error_rate := pyRound 3 eres.1
     in_cooldown := match m4.cooldown_until with
       | none => false
       | some c => decide (now < c) }, m4)

/-- One public call on the monitor, tagged with the wall-clock time at which
it happens. -/
inductive Op where
  | act (t : ℚ)
  | recAction (t : ℚ)
  | recError (t : ℚ)
  | stats (t : ℚ)
deriving Repr, DecidableEq

def Op.time : Op → ℚ
  | .act t => t
  | .recAction t => t
  | .recError t => t
  | .stats t => t

def Op.isAct : Op → Bool
  | .act _ => true
  | _ => false

/-- State transition of one call (the returned value is discarded). -/
def step (m : SafetyMonitor) (op : Op) : SafetyMonitor :=
  match op with
  | .act t => (m.canAct t).2
  | .recAction t => m.recordAction t
  | .recError t => m.recordError t
  | .stats t => (m.getStats t).2

/-- Run a sequence of calls. -/
def run (m : SafetyMonitor) (ops : List Op) : SafetyMonitor :=
  ops.foldl step m

/-- The results of the `can_act` calls in a sequence, in order. -/
def canActResults (m : SafetyMonitor) : List Op → List Bool
  | [] => []
  | op :: ops =>
    match op with
    | .act t => (m.canAct t).1 :: canActResults (step m op) ops
    | _ => canActResults (step m op) ops

end SafetyMonitor

namespace RateLimiter

/-! ### Derived notions about the limiters

The capacity predicate `can_act` decides, and the guarded usage protocol
(ask `can_act`, record only on a positive answer) the theorems below
analyse. -/
/-- The window has capacity at `now`: strictly fewer in-window timestamps
than `max_actions` (the condition `RateLimiter.can_act` checks). -/
def hasCapacity (rl : RateLimiter) (now : ℚ) : Prop :=
  (rl.windowCount now : ℤ) < rl.max_actions

instance (rl : RateLimiter) (now : ℚ) : Decidable (rl.hasCapacity now) := by
  unfold hasCapacity; infer_instance

/-- The guarded protocol: ask `can_act` and record only on a positive answer. -/
def guardedStep (rl : RateLimiter) (t : ℚ) : RateLimiter :=
  let res := rl.canAct t
  if res.1 then res.2.record t else res.2

def guardedRun (rl : RateLimiter) (ts : List ℚ) : RateLimiter :=
  ts.foldl guardedStep rl

/-- Invariant: timestamps are in the past and the in-window count is within
the cap. -/
def bounded (rl : RateLimiter) (t : ℚ) : Prop :=
  (∀ s ∈ rl.timestamps, s ≤ t) ∧ (rl.windowCount t : ℤ) ≤ rl.max_actions

end RateLimiter

/-! ### Concrete monitors and call sequences used by the claims -/
/-- A monitor with the default configuration, freshly constructed. -/
def exampleMonitor : SafetyMonitor := SafetyMonitor.init 8 30 150 (3/10) 3600 30

/-- A can_act-free call sequence with an error rate far above threshold. -/
def errorBurst : List SafetyMonitor.Op :=
  [.recError 1, .recError 2, .recError 3, .recError 4, .recError 5, .stats 6]

/-- A monitor with hourly limit 2 and three unconditional records. -/
def c7Monitor : SafetyMonitor := SafetyMonitor.init 2 30 150 (3/10) 3600 30

def c7Ops : List SafetyMonitor.Op := [.recAction 1, .recAction 2, .recAction 3]

/-! ### Keyword taxonomy (src/content/keyword_taxonomy.py)

The keyword corpus is transcribed verbatim.  Python's flat priority sets are
built by unioning the category keyword tuples; sets are modelled as
duplicate-free lists (`List.dedup`), which preserves the membership
semantics that scoring depends on. -/
inductive KeywordPriority where
  | high
  | medium
  | low
deriving Repr, DecidableEq

structure KeywordCategory where
  name : String
  keywords : List String
  priority : KeywordPriority
deriving Repr, DecidableEq

def CORE_ML_AI : KeywordCategory :=
  { name := "Core ML/AI Domains"
    priority := .medium
    keywords := ["deep learning", "machine learning", "artificial intelligence",
      "neural networks", "computer vision", "natural language processing",
      "NLP", "speech recognition", "reinforcement learning",
      "self-supervised learning", "semi-supervised learning",
      "multimodal learning", "vision-language models", "VLMs"] }

def FRAMEWORKS_TOOLS : KeywordCategory :=
  { name := "Frameworks & Tools"
    priority := .high
    keywords := ["PyTorch", "JAX", "scikit-learn",
      "ONNX", "TensorRT", "OpenVINO", "TorchScript",
      "Hugging Face", "transformers", "diffusers", "accelerate",
      "LangChain", "LlamaIndex", "LangGraph", "Semantic Kernel",
      "Ray", "Dask"] }

def LEGACY_FRAMEWORKS : KeywordCategory :=
  { name := "Legacy Frameworks"
    priority := .low
    keywords := ["TensorFlow", "Keras", "TFX", "TensorFlow Serving",
      "Spark MLlib", "Horovod"] }

def LLM_GENAI : KeywordCategory :=
  { name := "LLM & Generative AI"
    priority := .high
    keywords := ["large language models", "LLMs", "foundation models",
      "frontier models",
      "GPT", "Claude", "Llama", "Mistral", "Gemini", "open weight models",
      "retrieval augmented generation", "RAG", "vector search",
      "semantic search",
      "prompt engineering", "few-shot learning", "in-context learning",
      "fine-tuning", "LoRA", "QLoRA", "PEFT",
      "parameter-efficient fine-tuning",
      "instruction tuning", "RLHF", "constitutional AI", "alignment",
      "diffusion models", "stable diffusion", "text-to-image",
      "generative AI", "GenAI",
      "multimodal models", "vision transformers", "ViT", "CLIP", "BLIP"] }

def PRODUCTION_DEPLOYMENT : KeywordCategory :=
  { name := "Production & Deployment"
    priority := .high
    keywords := ["model deployment", "production ML", "AI in production",
      "AI at scale",
      "inference optimization", "model serving", "online inference",
      "batch inference",
      "model compression", "quantization", "pruning",
      "knowledge distillation",
      "int8", "fp16", "bfloat16", "mixed precision training",
      "edge AI", "edge deployment", "on-device ML", "TinyML",
      "model monitoring", "drift detection", "model performance tracking",
      "A/B testing", "shadow deployment", "canary deployment",
      "blue-green deployment"] }

def INFRASTRUCTURE_OPS : KeywordCategory :=
  { name := "Infrastructure & Operations"
    priority := .medium
    keywords := ["MLOps", "LLMOps", "AI operations", "ML infrastructure",
      "AI infrastructure",
      "feature stores", "data pipelines", "data versioning",
      "experiment tracking", "model registry",
      "distributed training", "data parallelism", "model parallelism",
      "GPU optimization", "CUDA", "NVIDIA",
      "cloud AI", "AWS SageMaker", "Azure ML", "Google Vertex AI",
      "Databricks",
      "cost optimization", "compute efficiency", "FinOps for ML"] }

def DATA_VECTOR : KeywordCategory :=
  { name := "Data & Vector Technologies"
    priority := .medium
    keywords := ["vector databases", "embeddings", "semantic embeddings",
      "Pinecone", "Weaviate", "Milvus", "Chroma", "Qdrant", "FAISS",
      "data preprocessing", "data quality", "synthetic data",
      "data augmentation"] }

def EMERGING_TECH : KeywordCategory :=
  { name := "Emerging Technologies"
    priority := .medium
    keywords := ["agentic AI", "AI agents", "autonomous agents",
      "multi-agent systems",
      "AutoGen", "CrewAI", "agent frameworks", "tool-using agents",
      "vLLM", "text-generation-inference", "TGI", "inference servers",
      "mixture of experts", "MoE", "sparse models",
      "efficient architectures",
      "open source AI", "open models", "model transparency",
      "responsible AI",
      "AI governance", "model cards", "fairness", "bias mitigation",
      "explainability"] }

def BUSINESS_STRATEGY : KeywordCategory :=
  { name := "Business & Strategy"
    priority := .high
    keywords := ["AI strategy", "AI transformation", "AI ROI",
      "business value of AI",
      "build vs buy", "vendor selection", "AI procurement",
      "AI team building", "talent acquisition", "upskilling",
      "AI ethics", "AI regulation", "AI compliance", "GDPR", "AI Act",
      "time to market", "product-market fit", "customer experience",
      "AI-powered product", "AI use case", "business impact",
      "revenue growth", "cost reduction", "operational efficiency",
      "digital transformation", "competitive advantage"] }

def ALL_CATEGORIES : List KeywordCategory :=
  [CORE_ML_AI, FRAMEWORKS_TOOLS, LEGACY_FRAMEWORKS, LLM_GENAI,
   PRODUCTION_DEPLOYMENT, INFRASTRUCTURE_OPS, DATA_VECTOR, EMERGING_TECH,
   BUSINESS_STRATEGY]

def keywordsOfPriority (p : KeywordPriority) : List String :=
  ((ALL_CATEGORIES.filter (fun c => c.priority = p)).flatMap
    (fun c => c.keywords)).dedup

def HIGH_PRIORITY_KEYWORDS : List String := keywordsOfPriority .high

def MEDIUM_PRIORITY_KEYWORDS : List String := keywordsOfPriority .medium

def LOW_PRIORITY_KEYWORDS : List String := keywordsOfPriority .low

def FRAMEWORK_WEIGHTS : List (String × ℤ) :=
  [("PyTorch", 10), ("JAX", 7), ("Hugging Face", 9), ("transformers", 8),
   ("ONNX", 6), ("TensorRT", 7), ("LangChain", 7), ("LlamaIndex", 7),
   ("Ray", 6), ("TensorFlow", 2), ("Keras", 2), ("TFX", 1), ("Horovod", 1)]

def PRODUCTION_KEYWORDS : List (String × ℤ) :=
  [("production", 10), ("deployment", 10), ("at scale", 12),
   ("infrastructure", 6), ("MLOps", 7), ("LLMOps", 8),
   ("serving", 8), ("inference", 8), ("optimization", 7),
   ("performance", 6), ("latency", 7), ("throughput", 7),
   ("real-world", 9), ("case study", 11), ("implementation", 9),
   ("model deployment", 12), ("production ML", 12),
   ("AI in production", 14), ("AI at scale", 14),
   ("model serving", 10), ("inference optimization", 12),
   ("distributed training", 8), ("GPU optimization", 8)]

def RESEARCH_KEYWORDS : List (String × ℤ) :=
  [("paper", 3), ("research", 3), ("novel", 2), ("proposed", 2),
   ("state-of-the-art", 4), ("benchmark", 5), ("experiment", 3),
   ("sota", 4), ("ablation", 2)]

def BUSINESS_KEYWORDS : List (String × ℤ) :=
  [("ROI", 10), ("cost", 7), ("efficiency", 8), ("business value", 12),
   ("enterprise", 9), ("scalability", 9), ("reliability", 8),
   ("revenue", 9), ("profit", 7), ("competitive advantage", 10),
   ("customer", 7), ("product", 6), ("market", 6),
   ("time to market", 10), ("business impact", 12),
   ("cost reduction", 10), ("revenue growth", 10),
   ("digital transformation", 8), ("AI strategy", 10),
   ("use case", 8), ("operational efficiency", 9),
   ("AI-powered", 8), ("business outcome", 11)]

def IMPLEMENTATION_KEYWORDS : List (String × ℤ) :=
  [("code", 6), ("GitHub", 7), ("open source", 7), ("tutorial", 5),
   ("how to", 6), ("best practices", 8), ("guide", 6), ("framework", 7),
   ("repository", 5), ("library", 5), ("SDK", 6), ("API", 5)]

def EXECUTIVE_SCALE_INDICATORS : List String :=
  ["distributed", "large-scale", "thousands of", "millions of",
   "enterprise-wide", "organization-wide", "company-wide",
   "petabyte", "terabyte", "cluster", "fleet"]

def EXECUTIVE_LEADERSHIP_SIGNALS : List String :=
  ["architecture", "strategy", "decision", "trade-offs", "trade-off",
   "evaluation", "assessment", "recommendation", "roadmap",
   "technical leadership", "engineering leadership",
   "CTO", "VP of Engineering", "Head of AI", "Chief AI Officer"]

def EXECUTIVE_OPERATIONAL_EXCELLENCE : List String :=
  ["monitoring", "observability", "incident", "postmortem",
   "lessons learned", "retrospective", "on-call", "SLA", "SLO",
   "uptime", "availability", "resilience"]

def EXECUTIVE_TEAM_ORG : List String :=
  ["team", "process", "workflow", "collaboration", "cross-functional",
   "hiring", "onboarding", "culture", "management"]

def EXECUTIVE_BUSINESS_OUTCOMES : List String :=
  ["revenue impact", "cost savings", "customer satisfaction",
   "time to value", "operational efficiency", "market share",
   "competitive moat", "business case", "stakeholder",
   "board", "C-suite", "executive sponsor"]

def THEORY_ONLY_INDICATORS : List String :=
  ["theoretical", "abstract", "mathematical proof", "theorem",
   "lemma", "corollary", "purely theoretical"]

/-! ### Content filter (src/content/content_filter.py)

Python string operations are modelled on `List Char`: `s.lower()` maps
`Char.toLower` (the corpus is ASCII), and `needle in haystack` is substring
containment.  The regular expressions used by content-type classification
are compiled by hand into a tiny pattern language (`PatAtom`) covering the
constructs they use: literals, alternations of literals, optional
alternations, and `.+`. -/
/-- Python `str.lower()`. -/
def pyLower (s : String) : String := String.mk (s.data.map Char.toLower)

/-- Python `needle in haystack` (substring containment). -/
def strContains (hay needle : String) : Bool :=
  (List.range (hay.data.length + 1)).any
    (fun i => needle.data.isPrefixOf (hay.data.drop i))

/-- `keyword.lower() in text_lower` for an already-lowered text. -/
def kwMatches (textLower : String) (kw : String) : Bool :=
  strContains textLower (pyLower kw)

/-- One atom of the regexes in `_classify_content_type`. -/
inductive PatAtom where
  | lit (s : String)
  | choice (alts : List String)
  | optChoice (alts : List String)
  | dotPlus
deriving Repr, DecidableEq

/-- Match a pattern against the start of `cs` (a prefix match).  `.+` consumes
one or more characters none of which is a newline, nondeterministically. -/
def matchAt : List PatAtom → List Char → Bool
  | [], _ => true
  | .lit s :: rest, cs =>
    s.data.isPrefixOf cs && matchAt rest (cs.drop s.data.length)
  | .choice alts :: rest, cs =>
    alts.any (fun a => a.data.isPrefixOf cs && matchAt rest (cs.drop a.data.length))
  | .optChoice alts :: rest, cs =>
    matchAt rest cs ||
      alts.any (fun a => a.data.isPrefixOf cs && matchAt rest (cs.drop a.data.length))
  | .dotPlus :: rest, cs =>
    (List.range cs.length).any (fun k =>
      ((cs.take (k + 1)).all (fun c => c ≠ '\n')) && matchAt rest (cs.drop (k + 1)))

/-- `re.search`: the pattern matches somewhere in the string. -/
def reSearch (pat : List PatAtom) (s : String) : Bool :=
  (List.range (s.data.length + 1)).any (fun i => matchAt pat (s.data.drop i))

/-- The regexes of the production-case-study check. -/
def CASE_STUDY_PATTERNS : List (List PatAtom) :=
  [[.lit "how we ", .choice ["built", "scaled", "deployed", "migrated"]],
   [.lit "case study"],
   [.lit "lessons learned"],
   [.lit "in production at"],
   [.lit "our ", .choice ["journey", "experience"], .lit " with"],
   [.lit "post", .optChoice ["-"], .lit "mortem"],
   [.lit "scaling ", .dotPlus, .lit " to ", .dotPlus, .lit " ",
    .choice ["users", "requests", "queries"]]]

def INFRA_PATTERNS : List (List PatAtom) :=
  [[.lit "architecture ", .choice ["of", "for", "behind"]],
   [.lit "deep dive"],
   [.lit "infrastructure"],
   [.lit "system design"],
   [.lit "technical design"]]

/-- `vs\.?` matches wherever `vs` does (the dot is optional), so the first
alternation is encoded by its literal branches. -/
def COMPARISON_PATTERNS : List (List PatAtom) :=
  [[.choice ["vs", "versus", "compared to", "comparison"]],
   [.lit "which ", .choice ["one", "framework", "tool"]],
   [.choice ["pros", "cons"], .lit " of"],
   [.lit "benchmark", .optChoice ["ing", "s"]]]

def COMPARISON_FRAMEWORKS : List String :=
  ["PyTorch", "TensorFlow", "JAX", "ONNX", "TensorRT",
   "Ray", "vLLM", "LangChain", "LlamaIndex"]

def TUTORIAL_PATTERNS : List (List PatAtom) :=
  [[.lit "tutorial"],
   [.lit "step", .choice ["-", " "], .lit "by", .choice ["-", " "], .lit "step"],
   [.lit "how to"],
   [.lit "getting started"],
   [.lit "guide"],
   [.lit "walkthrough"]]

/-- Content types ranked by value for executive positioning. -/
inductive ContentType where
  | production_case_study
  | infra_deep_dive
  | framework_comparison
  | benchmark_real_workload
  | research_with_code
  | technical_tutorial
  | pure_research
  | general
deriving Repr, DecidableEq

/-- `CONTENT_TYPE_MULTIPLIERS` (a total lookup; `.get(ct, 1.0)` never falls
through because the table covers every content type). -/
def CONTENT_TYPE_MULTIPLIERS : ContentType → ℚ
  | .production_case_study => 2
  | .infra_deep_dive => 2
  | .framework_comparison => 3/2
  | .benchmark_real_workload => 3/2
  | .research_with_code => 6/5
  | .technical_tutorial => 6/5
  | .pure_research => 4/5
  | .general => 1

/-- `ContentFilter._classify_content_type` (the `url` argument is accepted
and ignored, as in the source). -/
def classifyContentType (text : String) (_url : String := "") : ContentType :=
  let tl := pyLower text
  if CASE_STUDY_PATTERNS.any (fun p => reSearch p tl) then
    .production_case_study
  else if 2 ≤ (INFRA_PATTERNS.filter (fun p => reSearch p tl)).length then
    .infra_deep_dive
  else if (COMPARISON_PATTERNS.any (fun p => reSearch p tl)) &&
      (COMPARISON_FRAMEWORKS.any (fun kw => kwMatches tl kw)) then
    .framework_comparison
  else if (strContains tl "github" || strContains tl "code" ||
        strContains tl "repository") &&
      (RESEARCH_KEYWORDS.any (fun kw => kwMatches tl kw.1)) then
    .research_with_code
  else if TUTORIAL_PATTERNS.any (fun p => reSearch p tl) then
    .technical_tutorial
  else if (RESEARCH_KEYWORDS.any (fun kw => kwMatches tl kw.1)) &&
      !(PRODUCTION_KEYWORDS.any (fun kw => kwMatches tl kw.1)) then
    .pure_research
  else
    .general

/-- Sum of the weights of the dictionary keywords present in the text. -/
def dictScore (d : List (String × ℤ)) (textLower : String) : ℚ :=
  d.foldl (fun acc kw => if kwMatches textLower kw.1 then acc + (kw.2 : ℚ) else acc) 0

/-- Add `w` for every list entry present in the text. -/
def listScore (kws : List String) (w : ℚ) (textLower : String) : ℚ :=
  kws.foldl (fun acc k => if kwMatches textLower k then acc + w else acc) 0

/-- `ContentFilter._calculate_production_relevance`. -/
def calculateProductionRelevance (text : String) : ℚ :=
  let text_lower := pyLower text
  let score : ℚ :=
    dictScore PRODUCTION_KEYWORDS text_lower
    + dictScore RESEARCH_KEYWORDS text_lower
    + dictScore BUSINESS_KEYWORDS text_lower
    + dictScore IMPLEMENTATION_KEYWORDS text_lower
    + dictScore FRAMEWORK_WEIGHTS text_lower
  let has_production := PRODUCTION_KEYWORDS.any (fun kw => kwMatches text_lower kw.1)
  let has_implementation :=
    IMPLEMENTATION_KEYWORDS.any (fun kw => kwMatches text_lower kw.1)
  let score := if has_production && has_implementation then score + 15 else score
  let has_business := BUSINESS_KEYWORDS.any (fun kw => kwMatches text_lower kw.1)
  let score := if has_business && has_production then score + 12 else score
  let has_theory := THEORY_ONLY_INDICATORS.any (fun t => kwMatches text_lower t)
  let score := if has_theory && !has_production then score - 10 else score
  max 0 score

/-- `ContentFilter._calculate_executive_score`. -/
def calculateExecutiveScore (enable_executive_filter : Bool) (text : String) : ℚ :=
  if !enable_executive_filter then 0
  else
    let text_lower := pyLower text
    listScore EXECUTIVE_BUSINESS_OUTCOMES 6 text_lower
    + listScore EXECUTIVE_SCALE_INDICATORS 5 text_lower
    + listScore EXECUTIVE_LEADERSHIP_SIGNALS 4 text_lower
    + listScore EXECUTIVE_OPERATIONAL_EXCELLENCE 3 text_lower
    + listScore EXECUTIVE_TEAM_ORG 3 text_lower

/-- `ContentFilter._calculate_keyword_score`. -/
def calculateKeywordScore (text : String) : ℚ :=
  let text_lower := pyLower text
  listScore HIGH_PRIORITY_KEYWORDS 5 text_lower
  + listScore MEDIUM_PRIORITY_KEYWORDS 3 text_lower
  + listScore LOW_PRIORITY_KEYWORDS 1 text_lower

/-- `ContentFilter._find_matched_keywords` (Python iterates the union set,
whose order is unspecified; the concatenated priority lists stand in). -/
def findMatchedKeywords (text : String) (max_keywords : ℕ := 15) : List String :=
  let text_lower := pyLower text
  (((HIGH_PRIORITY_KEYWORDS ++ MEDIUM_PRIORITY_KEYWORDS
      ++ LOW_PRIORITY_KEYWORDS).dedup).filter
    (fun kw => kwMatches text_lower kw)).take max_keywords

/-- `ContentFilter._find_matched_categories`. -/
def findMatchedCategories (text : String) : List String :=
  let text_lower := pyLower text
  (ALL_CATEGORIES.filter
    (fun cat => cat.keywords.any (fun kw => kwMatches text_lower kw))).map
    (fun cat => cat.name)

/-- `months_ago` (src/utils/helpers.py): fractional 30-day months between
the published instant and now, clamped at 0.  Instants are POSIX seconds. -/
def months_ago (dtSec nowSec : ℚ) : ℚ :=
  max 0 ((nowSec - dtSec) / (30 * 86400))

/-- `ContentFilter._calculate_freshness`.  `published_at` is the raw field
(`none`/empty is Python-falsy); `parsed` is the result of
`parse_published_date(published_at)` (a datetime abstracted to POSIX
seconds, `none` when unparseable). -/
def calculateFreshness (published_at : Option String) (parsed : Option ℚ)
    (now : ℚ) : ℚ :=
  if published_at = none ∨ published_at = some "" then 1
  else
    match parsed with
    | none => 1
    | some dt =>
      let age := months_ago dt now
      pyRound 4 (min 1 (max (1/10) (1 - (age - 1) * (1/4))))

/-- `ScoredContent` (src/content/content_filter.py). -/
structure ScoredContent where
  title : String
  content : String
  url : String := ""
  source : String := ""
  author : String := ""
  published_at : Option String := none
  production_score : ℚ := 0
  executive_score : ℚ := 0
  keyword_score : ℚ := 0
  content_type : ContentType := .general
  type_multiplier : ℚ := 1
  freshness_multiplier : ℚ := 1
  final_score : ℚ := 0
  matched_keywords : List String := []
  matched_categories : List String := []
deriving Repr, DecidableEq

/-- `ContentFilter` configuration. -/
structure ContentFilter where
  min_score_threshold : ℚ := 10
  enable_executive_filter : Bool := true
  max_age_months : ℤ := 3
deriving Repr, DecidableEq

/-- The final composite formula of `ContentFilter.score` (line 148-155):
`round(base * type_multiplier * freshness_multiplier, 2)` with
`base = 0.30*production + 0.35*executive + 0.35*keyword`. -/
def finalScoreFormula (production executive keyword tm fm : ℚ) : ℚ :=
  pyRound 2 ((production * (30/100) + executive * (35/100)
    + keyword * (35/100)) * tm * fm)

/-- `ContentFilter.score`.  `parsed`/`now` abstract
`parse_published_date(published_at)` and the current instant. -/
def ContentFilter.score (cf : ContentFilter) (title content : String)
    (url : String := "") (source : String := "") (author : String := "")
    (published_at : Option String := none) (parsed : Option ℚ := none)
    (now : ℚ := 0) : ScoredContent :=
  let combined_text := title ++ " " ++ content
  let production_score := calculateProductionRelevance combined_text
  let executive_score :=
    calculateExecutiveScore cf.enable_executive_filter combined_text
  let content_type := classifyContentType combined_text url
  let type_multiplier := CONTENT_TYPE_MULTIPLIERS content_type
  let keyword_score := calculateKeywordScore combined_text
  let freshness_multiplier := calculateFreshness published_at parsed now
  { title := title, content := content, url := url, source := source
    author := author, published_at := published_at
    production_score := production_score
    executive_score := executive_score
    keyword_score := keyword_score
    content_type := content_type
    type_multiplier := type_multiplier
    freshness_multiplier := freshness_multiplier
    final_score := finalScoreFormula production_score executive_score
      keyword_score type_multiplier freshness_multiplier
    matched_keywords := findMatchedKeywords combined_text
    matched_categories := findMatchedCategories combined_text }

/-! ### Reranker (src/content/reranker.py)

CatBoost is an external library: a fitted classifier is abstracted to its
positive-class probability function, and `train`'s fitting step to an
oracle argument.  Everything else (label selection, the insufficient-data
early return, the fallback behaviour of `rerank`) is embedded from the
source. -/
def FEATURE_NAMES : List String :=
  ["production_score", "executive_score", "keyword_score", "type_multiplier",
   "freshness_multiplier", "title_length", "content_length",
   "num_matched_keywords", "num_matched_categories", "has_url",
   "rule_based_score"]

def CAT_FEATURE_NAMES : List String := ["content_type", "source"]

def ALL_FEATURE_NAMES : List String := FEATURE_NAMES ++ CAT_FEATURE_NAMES

/-- The feature record of `extract_features_from_db_row`: the eleven numeric
features and two categorical features, in the order of `ALL_FEATURE_NAMES`. -/
structure FeatureDict where
  production_score : ℚ
  executive_score : ℚ
  keyword_score : ℚ
  type_multiplier : ℚ
  freshness_multiplier : ℚ
  title_length : ℕ
  content_length : ℕ
  num_matched_keywords : ℕ
  num_matched_categories : ℕ
  has_url : ℕ
  rule_based_score : ℚ
  content_type : String
  source : String
deriving Repr, DecidableEq

/-- A fitted CatBoost classifier, abstracted to `P(liked = 1)` on a feature
row. -/
def CatBoostModel := FeatureDict → ℚ

/-- A `feed_items` row joined with feedback, as consumed by `train`
(`matched_keywords`/`matched_categories` carry the parsed JSON arrays the
store serialises, `none` for NULL). -/
structure DBRow where
  item_hash : String := ""
  feedback : Option String := none
  production_score : ℚ := 0
  executive_score : ℚ := 0
  keyword_score : ℚ := 0
  final_score : ℚ := 0
  title : String := ""
  content : String := ""
  url : String := ""
  content_type : String := "general"
  source_name : String := ""
  matched_keywords : Option (List String) := none
  matched_categories : Option (List String) := none
deriving Repr, DecidableEq

/-- Python `len(s.split())`: the number of whitespace-separated words. -/
def pyWordCount (s : String) : ℕ :=
  ((s.split (fun c => c.isWhitespace)).filter (fun w => w ≠ "")).length

/-- `FeedReranker.extract_features_from_db_row`. -/
def extract_features_from_db_row (row : DBRow) : FeatureDict :=
  { production_score := row.production_score
    executive_score := row.executive_score
    keyword_score := row.keyword_score
    type_multiplier := 1
    freshness_multiplier := 1
    title_length := pyWordCount row.title
    content_length := pyWordCount row.content
    num_matched_keywords := (row.matched_keywords.getD []).length
    num_matched_categories := (row.matched_categories.getD []).length
    has_url := if row.url ≠ "" then 1 else 0
    rule_based_score := row.final_score
    content_type := row.content_type
    source := row.source_name }

/-- `FeedReranker.extract_features` returns `item.to_feature_dict()`.
`ScoredContent` (src/content/content_filter.py:59-84) defines no
`to_feature_dict` method and no such attribute exists anywhere in the
repository, so the lookup raises `AttributeError` for every item. -/
def extract_features (_item : ScoredContent) : Except String FeatureDict :=
  .error "AttributeError: ScoredContent object has no attribute to_feature_dict"

/-- The sidecar statistics record produced by a successful training run. -/
structure TrainStats where
  total_samples : ℕ
  liked : ℕ
  disliked : ℕ
  feature_importance : List (String × ℚ)

/-- In-memory reranker state. -/
structure FeedReranker where
  model_path : String := "data/reranker_model.cbm"
  min_training_samples : ℕ := 20
  model : Option CatBoostModel := none
  stats : Option TrainStats := none

/-- The model artefacts on disk. -/
structure ModelDisk where
  modelFile : Option CatBoostModel := none
  statsFile : Option TrainStats := none

/-- `FeedReranker.is_trained`. -/
def FeedReranker.is_trained (r : FeedReranker) : Bool := r.model.isSome

/-- Python `row.get("feedback") or feedback_map.get(item_hash)`: the first
operand wins unless it is falsy (`None` or the empty string). -/
def pyOr (a b : Option String) : Option String :=
  match a with
  | some s => if s = "" then b else some s
  | none => b

/-- `dict.get` on a map with unique keys. -/
def lookupMap (m : List (String × String)) (k : String) : Option String :=
  (m.find? (fun p => p.1 = k)).map (fun p => p.2)

/-- The usable labelled rows of `train` (feedback in `{liked, disliked}`),
paired with their extracted features: label 1 for liked, 0 for disliked. -/
def usableTraining (training_data : List DBRow)
    (feedback_map : List (String × String)) : List (FeatureDict × ℕ) :=
  training_data.filterMap (fun row =>
    match pyOr row.feedback (lookupMap feedback_map row.item_hash) with
    | some fb =>
      if fb = "liked" then some (extract_features_from_db_row row, 1)
      else if fb = "disliked" then some (extract_features_from_db_row row, 0)
      else none
    | none => none)

/-- The outcome record of `FeedReranker.train`. -/
inductive TrainOutcome where
  | insufficient_data (samples : ℕ) (min_required : ℕ)
  | trained (stats : TrainStats)

/-- `FeedReranker.train`.  `fit` abstracts the CatBoost fitting call on the
80/20 head split (and with it the numeric model and feature importances);
below the minimum the status record is returned before any fitting, state
change or disk write. -/
def FeedReranker.train (r : FeedReranker) (disk : ModelDisk)
    (training_data : List DBRow) (feedback_map : List (String × String))
    (fit : List FeatureDict → List ℕ → CatBoostModel × List (String × ℚ)) :
    TrainOutcome × FeedReranker × ModelDisk :=
  let usable := usableTraining training_data feedback_map
  let features := usable.map (fun p => p.1)
  let labels := usable.map (fun p => p.2)
  if labels.length < r.min_training_samples then
    (.insufficient_data labels.length r.min_training_samples, r, disk)
  else
    let split_idx := max 1 ((labels.length * 8) / 10)
    let fitted := fit (features.take split_idx) (labels.take split_idx)
    let stats : TrainStats :=
      { total_samples := labels.length
        liked := labels.sum
        disliked := labels.length - labels.sum
        feature_importance := fitted.2 }
    (.trained stats,
     { r with model := some fitted.1, stats := some stats },
     { modelFile := some fitted.1, statsFile := some stats })

/-- Descending order on `final_score` (the key of `rerank`'s sorts). -/
def scoreGe (a b : ScoredContent) : Prop := b.final_score ≤ a.final_score

instance : DecidableRel scoreGe := fun a b =>
  inferInstanceAs (Decidable (b.final_score ≤ a.final_score))

instance : IsTotal ScoredContent scoreGe :=
  ⟨fun a b => le_total b.final_score a.final_score⟩

instance : IsTrans ScoredContent scoreGe :=
  ⟨fun _ _ _ hab hbc => le_trans hbc hab⟩

/-- `FeedReranker.rerank`.  Stable descending sorts model Python's stable
`sorted`/`list.sort` with `reverse=True`. -/
def FeedReranker.rerank (r : FeedReranker) (items : List ScoredContent) :
    List ScoredContent :=
  match r.model with
  | none => List.insertionSort scoreGe items
  | some model =>
    if items.isEmpty then List.insertionSort scoreGe items
    else
      match items.mapM extract_features with
      | .error _ =>
        -- `except Exception`: prediction failed; fall back to rule-based order
        List.insertionSort scoreGe items
      | .ok feature_dicts =>
        List.insertionSort scoreGe
          ((items.zip (feature_dicts.map model)).map
            (fun p => { p.1 with final_score := pyRound 2 (p.2 * 100) }))

def c9Reranker : FeedReranker := {}

def c9Disk : ModelDisk := {}

def c9Rows : List DBRow :=
  [{ item_hash := "aa", feedback := some "liked" },
   { item_hash := "bb", feedback := some "disliked" }]

def c9Fit : List FeatureDict → List ℕ → CatBoostModel × List (String × ℚ) :=
  fun _ _ => (fun _ => 0, [])

/-! ### Store (src/database/models.py, src/database/crud.py)

The SQLite file is modelled table-by-table; a table that was never created
is `none`, and statements against it fail the way sqlite3 raises
`OperationalError: no such table`.  `SCHEMA` in models.py creates exactly
`posts`, `comments`, `interaction_log`, `content_library`, `config` and
`feed_items`; no statement in the repository creates `user_feedback` (or
`search_feedback`), although `FeedbackCRUD` reads and writes it. -/
/-- A `feed_items` row.  The JSON-string columns carry their parsed arrays
(the store writes `json.dumps` of exactly such lists, or NULL). -/
structure FeedItemRow where
  id : ℕ := 0
  item_hash : String := ""
  title : String := ""
  content : String := ""
  url : String := ""
  source_name : String := ""
  source_category : String := ""
  author : String := ""
  published_at : Option String := none
  production_score : ℚ := 0
  executive_score : ℚ := 0
  keyword_score : ℚ := 0
  final_score : ℚ := 0
  content_type : String := ""
  matched_keywords : Option (List String) := none
  matched_categories : Option (List String) := none
  saved_to_library : ℤ := 0
  fetched_at : String := ""
deriving Repr, DecidableEq

/-- A `user_feedback` row as `FeedbackCRUD`'s SQL assumes it (its upsert
conflicts on `feed_item_id`, so that column is the unique key). -/
structure UserFeedbackRow where
  feed_item_id : ℕ
  item_hash : String
  feedback : String
  created_at : String
deriving Repr, DecidableEq

/-- The relevant slice of the SQLite database: the two tables the claims
touch, plus the names of the other created tables. -/
structure Database where
  feed_items : Option (List FeedItemRow)
  user_feedback : Option (List UserFeedbackRow)
  otherTables : List String
deriving Repr, DecidableEq

/-- `Database._init_schema`: run `SCHEMA` (which creates `posts`,
`comments`, `interaction_log`, `content_library`, `config` and
`feed_items`) and `_migrate` (which only adds `content_library` columns).
No `user_feedback` table is created anywhere in the repository. -/
def Database.init : Database :=
  { feed_items := some []
    user_feedback := none
    otherTables := ["posts", "comments", "interaction_log",
      "content_library", "config"] }

/-- The named arguments of `FeedItemCRUD.upsert`, with their defaults. -/
structure UpsertArgs where
  item_hash : String
  title : String
  content : String := ""
  url : String := ""
  source_name : String := ""
  source_category : String := ""
  author : String := ""
  published_at : Option String := none
  production_score : ℚ := 0
  executive_score : ℚ := 0
  keyword_score : ℚ := 0
  final_score : ℚ := 0
  content_type : String := ""
  matched_keywords : Option (List String) := none
  matched_categories : Option (List String) := none
deriving Repr, DecidableEq

/-- `json.dumps(xs) if xs else None`: `None` and the empty list are falsy. -/
def jsonOrNull (xs : Option (List String)) : Option (List String) :=
  match xs with
  | none => none
  | some l => if l = [] then none else some l

namespace FeedItemCRUD

/-- `FeedItemCRUD.upsert`: INSERT with
`ON CONFLICT(item_hash) DO UPDATE SET final_score = excluded.final_score,
fetched_at = datetime('now')`.  `nextId` models the autoincrement id and
`now` the `datetime('now')` timestamp. -/
def upsert (db : Database) (a : UpsertArgs) (nextId : ℕ) (now : String) :
    Except String Database :=
  match db.feed_items with
  | none => .error "no such table: feed_items"
  | some tbl =>
    if tbl.any (fun r => r.item_hash = a.item_hash) then
      .ok { db with feed_items := some (tbl.map (fun r =>
        if r.item_hash = a.item_hash then
          { r with final_score := a.final_score, fetched_at := now }
        else r)) }
    else
      .ok { db with feed_items := some (tbl ++ [{
        id := nextId
        item_hash := a.item_hash
        title := a.title
        content := a.content
        url := a.url
        source_name := a.source_name
        source_category := a.source_category
        author := a.author
        published_at := a.published_at
        production_score := a.production_score
        executive_score := a.executive_score
        keyword_score := a.keyword_score
        final_score := a.final_score
        content_type := a.content_type
        matched_keywords := jsonOrNull a.matched_keywords
        matched_categories := jsonOrNull a.matched_categories
        saved_to_library := 0
        fetched_at := now }]) }

/-- `FeedItemCRUD.count`: `SELECT COUNT(*) FROM feed_items`. -/
def count (db : Database) : Except String ℕ :=
  match db.feed_items with
  | none => .error "no such table: feed_items"
  | some tbl => .ok tbl.length

end FeedItemCRUD

namespace FeedbackCRUD

/-- `FeedbackCRUD.set_feedback`: INSERT INTO `user_feedback` with
`ON CONFLICT(feed_item_id) DO UPDATE SET feedback = excluded.feedback,
created_at = datetime('now')`. -/
def set_feedback (db : Database) (feed_item_id : ℕ)
    (item_hash feedback : String) (now : String) : Except String Database :=
  match db.user_feedback with
  | none => .error "no such table: user_feedback"
  | some tbl =>
    if tbl.any (fun r => r.feed_item_id = feed_item_id) then
      .ok { db with user_feedback := some (tbl.map (fun r =>
        if r.feed_item_id = feed_item_id then
          { r with feedback := feedback, created_at := now }
        else r)) }
    else
      .ok { db with
        user_feedback :=
          some (tbl ++ [⟨feed_item_id, item_hash, feedback, now⟩]) }

/-- `FeedbackCRUD.get_feedback_map`: `{row.item_hash: row.feedback}` over
all rows (later rows overwrite earlier ones for a duplicated hash). -/
def get_feedback_map (db : Database) : Except String (List (String × String)) :=
  match db.user_feedback with
  | none => .error "no such table: user_feedback"
  | some tbl => .ok (tbl.map (fun r => (r.item_hash, r.feedback)))

end FeedbackCRUD

def c5Db : Database :=
  { feed_items := some
      [{ id := 1, item_hash := "deadbeefdeadbeef", title := "Original",
         content := "body", url := "https://e.com", final_score := 10,
         fetched_at := "2025-01-01" }]
    user_feedback := none
    otherTables := ["posts", "comments", "interaction_log",
      "content_library", "config"] }

namespace SHA256

/-! ### SHA-256 (hashlib.sha256, as used by FeedItem.__post_init__)

A direct embedding of FIPS 180-4 over byte lists, with 32-bit words as
naturals reduced mod 2^32. -/
def w32 (x : ℕ) : ℕ := x % 4294967296

def rotr (n x : ℕ) : ℕ := w32 ((x >>> n) ||| (x <<< (32 - n)))

def smallSigma0 (x : ℕ) : ℕ := ((rotr 7 x).xor (rotr 18 x)).xor (x >>> 3)

def smallSigma1 (x : ℕ) : ℕ := ((rotr 17 x).xor (rotr 19 x)).xor (x >>> 10)

def bigSigma0 (x : ℕ) : ℕ := ((rotr 2 x).xor (rotr 13 x)).xor (rotr 22 x)

def bigSigma1 (x : ℕ) : ℕ := ((rotr 6 x).xor (rotr 11 x)).xor (rotr 25 x)

def ch (e f g : ℕ) : ℕ := (e.land f).xor ((e.xor 4294967295).land g)

def maj (a b c : ℕ) : ℕ := ((a.land b).xor (a.land c)).xor (b.land c)

def K : List ℕ :=
  [1116352408, 1899447441, 3049323471, 3921009573,
   961987163, 1508970993, 2453635748, 2870763221,
   3624381080, 310598401, 607225278, 1426881987,
   1925078388, 2162078206, 2614888103, 3248222580,
   3835390401, 4022224774, 264347078, 604807628,
   770255983, 1249150122, 1555081692, 1996064986,
   2554220882, 2821834349, 2952996808, 3210313671,
   3336571891, 3584528711, 113926993, 338241895,
   666307205, 773529912, 1294757372, 1396182291,
   1695183700, 1986661051, 2177026350, 2456956037,
   2730485921, 2820302411, 3259730800, 3345764771,
   3516065817, 3600352804, 4094571909, 275423344,
   430227734, 506948616, 659060556, 883997877,
   958139571, 1322822218, 1537002063, 1747873779,
   1955562222, 2024104815, 2227730452, 2361852424,
   2428436474, 2756734187, 3204031479, 3329325298]

def initialHash : List ℕ :=
  [1779033703, 3144134277, 1013904242, 2773480762,
   1359893119, 2600822924, 528734635, 1541459225]

/-- Big-endian bytes of `n`, `len` bytes wide. -/
def toBytesBE (n len : ℕ) : List ℕ :=
  (List.range len).map (fun i => (n >>> (8 * (len - 1 - i))) % 256)

/-- Pad the message: a 0x80 byte, zeros to 56 mod 64, the 64-bit bit
length. -/
def padBytes (msg : List ℕ) : List ℕ :=
  let zeros := (56 + 64 - ((msg.length + 1) % 64)) % 64
  msg ++ [0x80] ++ List.replicate zeros 0 ++ toBytesBE (msg.length * 8) 8

/-- Group bytes into big-endian 32-bit words. -/
def toWords : List ℕ → List ℕ
  | b0 :: b1 :: b2 :: b3 :: rest =>
    (((b0 * 256 + b1) * 256 + b2) * 256 + b3) :: toWords rest
  | _ => []

/-- Extend 16 words to the 64-word message schedule. -/
def schedule (ws : List ℕ) : List ℕ :=
  (List.range 48).foldl (fun w i =>
    w ++ [w32 (smallSigma1 (w.getD (i + 14) 0) + w.getD (i + 9) 0
      + smallSigma0 (w.getD (i + 1) 0) + w.getD i 0)]) ws

/-- One compression round over the working tuple `(a,b,c,d,e,f,g,h)`. -/
def round (w : List ℕ) (st : ℕ × ℕ × ℕ × ℕ × ℕ × ℕ × ℕ × ℕ) (i : ℕ) :
    ℕ × ℕ × ℕ × ℕ × ℕ × ℕ × ℕ × ℕ :=
  match st with
  | (a, b, c, d, e, f, g, h) =>
    let t1 := w32 (h + bigSigma1 e + ch e f g + K.getD i 0 + w.getD i 0)
    let t2 := w32 (bigSigma0 a + maj a b c)
    (w32 (t1 + t2), a, b, c, w32 (d + t1), e, f, g)

/-- Compress one 64-byte block into the hash state. -/
def compress (hs : List ℕ) (block : List ℕ) : List ℕ :=
  let w := schedule (toWords block)
  let st0 := (hs.getD 0 0, hs.getD 1 0, hs.getD 2 0, hs.getD 3 0,
    hs.getD 4 0, hs.getD 5 0, hs.getD 6 0, hs.getD 7 0)
  match (List.range 64).foldl (round w) st0 with
  | (a, b, c, d, e, f, g, h) =>
    [w32 (hs.getD 0 0 + a), w32 (hs.getD 1 0 + b), w32 (hs.getD 2 0 + c),
     w32 (hs.getD 3 0 + d), w32 (hs.getD 4 0 + e), w32 (hs.getD 5 0 + f),
     w32 (hs.getD 6 0 + g), w32 (hs.getD 7 0 + h)]

/-- Split into 64-byte blocks. -/
def blocks : List ℕ → List (List ℕ)
  | [] => []
  | b :: rest =>
    ((b :: rest).take 64) :: blocks ((b :: rest).drop 64)
termination_by l => l.length
decreasing_by simp; omega

def digestBytes (msg : List ℕ) : List ℕ :=
  ((blocks (padBytes msg)).foldl compress initialHash).flatMap
    (fun h => toBytesBE h 4)

def hexDigit (n : ℕ) : Char := "0123456789abcdef".data.getD n '0'

def toHexString (bytes : List ℕ) : String :=
  String.mk (bytes.flatMap (fun b => [hexDigit (b / 16), hexDigit (b % 16)]))

/-- UTF-8 bytes of one character (Python `str.encode()`). -/
def utf8Char (c : Char) : List ℕ :=
  let n := c.toNat
  if n < 0x80 then [n]
  else if n < 0x800 then
    [0xC0 ||| (n >>> 6), 0x80 ||| (n &&& 0x3F)]
  else if n < 0x10000 then
    [0xE0 ||| (n >>> 12), 0x80 ||| ((n >>> 6) &&& 0x3F), 0x80 ||| (n &&& 0x3F)]
  else
    [0xF0 ||| (n >>> 18), 0x80 ||| ((n >>> 12) &&& 0x3F),
     0x80 ||| ((n >>> 6) &&& 0x3F), 0x80 ||| (n &&& 0x3F)]

/-- `hashlib.sha256(s.encode()).hexdigest()`. -/
def hexdigest (s : String) : String :=
  toHexString (digestBytes (s.data.flatMap utf8Char))

end SHA256

/-! ### Aggregator (src/content/rss_aggregator.py)

The network fetch and the XML/JSON parsers are I/O; `fetch_all` is embedded
over the per-source parse results it combines.  What the claims exercise —
the per-feed truncation, the concatenation, and the absence of any
within-batch deduplication — is all in this layer. -/
/-- A raw feed item.  `mkFeedItem` is the dataclass constructor together
with `__post_init__`, which fills an empty `item_hash` with the first 16
hex characters of SHA-256 of `title + url`. -/
structure FeedItem where
  title : String
  content : String
  url : String
  source_name : String
  source_priority : ℤ
  source_category : String
  published_at : Option String := none
  author : String := ""
  item_hash : String := ""
deriving Repr, DecidableEq

def mkFeedItem (title content url source_name : String)
    (source_priority : ℤ) (source_category : String)
    (published_at : Option String := none) (author : String := "")
    (item_hash : String := "") : FeedItem :=
  { title := title, content := content, url := url
    source_name := source_name, source_priority := source_priority
    source_category := source_category, published_at := published_at
    author := author
    item_hash :=
      if item_hash = "" then (SHA256.hexdigest (title ++ url)).take 16
      else item_hash }

namespace RSSAggregator

/-- `fetch_feed` after the cache/network/parse stage: the parsed items are
truncated to `max_items_per_feed`. -/
def fetch_feed (parsed : List FeedItem) (max_items_per_feed : ℕ) :
    List FeedItem :=
  parsed.take max_items_per_feed

/-- `fetch_all`: extend `all_items` with each selected source's items, in
order; no deduplication of any kind. -/
def fetch_all (sourceResults : List (List FeedItem))
    (max_items_per_feed : ℕ) : List FeedItem :=
  (sourceResults.map (fun items => fetch_feed items max_items_per_feed)).flatten

end RSSAggregator

/-- The dict `fetch_and_filter` builds for each raw item. -/
structure ContentItemDict where
  title : String := ""
  content : String := ""
  url : String := ""
  source : String := ""
  author : String := ""
  published_at : Option String := none
deriving Repr, DecidableEq

/-- `ContentFilter.filter_and_rank`:  score each dict, keep
`final_score ≥ min_score_threshold`, sort descending (stably), truncate. -/
def ContentFilter.filter_and_rank (cf : ContentFilter)
    (items : List ContentItemDict) (parse : Option String → Option ℚ)
    (now : ℚ) (max_results : ℕ := 20) : List ScoredContent :=
  let scored_items := (items.map (fun it =>
    cf.score it.title it.content it.url it.source it.author it.published_at
      (parse it.published_at) now)).filter
    (fun sc => cf.min_score_threshold ≤ sc.final_score)
  (List.insertionSort scoreGe scored_items).take max_results

/-- `RSSAggregator.fetch_and_filter`: fetch, convert to dicts, score,
filter and rank.  `parse`/`now` abstract `parse_published_date` and the
clock, as in `ContentFilter.score`. -/
def RSSAggregator.fetch_and_filter (sourceResults : List (List FeedItem))
    (max_items_per_feed : ℕ) (cf : ContentFilter)
    (parse : Option String → Option ℚ) (now : ℚ)
    (max_results : ℕ := 20) : List ScoredContent :=
  let raw_items := RSSAggregator.fetch_all sourceResults max_items_per_feed
  cf.filter_and_rank (raw_items.map (fun item =>
    { title := item.title, content := item.content, url := item.url
      source := item.source_name, author := item.author
      published_at := item.published_at })) parse now max_results

/-! ### Concrete items used by the aggregator claims -/
def c4ItemA : FeedItem :=
  mkFeedItem "Attention Is All You Need" "" "https://example.com/a"
    "Feed One" 1 "AI"

def c4ItemB : FeedItem :=
  mkFeedItem "Attention Is All You Need" "" "https://example.com/a"
    "Feed Two" 2 "AI"

/-! ## Theorems

First the supporting lemmas, component by component, then the claim
theorems with their witnesses and counterexamples. -/

theorem roundHalfToEven_intCast (n : ℤ) : roundHalfToEven (n : ℚ) = n := by
  simp [roundHalfToEven]

theorem roundHalfToEven_ge_floor (x : ℚ) : ⌊x⌋ ≤ roundHalfToEven x := by
  unfold roundHalfToEven
  split_ifs <;> omega

theorem roundHalfToEven_le_ceil (x : ℚ) : roundHalfToEven x ≤ ⌊x⌋ + 1 := by
  unfold roundHalfToEven
  split_ifs <;> omega

theorem roundHalfToEven_mono {x y : ℚ} (h : x ≤ y) :
    roundHalfToEven x ≤ roundHalfToEven y := by
  have hf : ⌊x⌋ ≤ ⌊y⌋ := Int.floor_le_floor h
  rcases lt_or_eq_of_le hf with hlt | heq
  · calc roundHalfToEven x ≤ ⌊x⌋ + 1 := roundHalfToEven_le_ceil x
      _ ≤ ⌊y⌋ := by omega
      _ ≤ roundHalfToEven y := roundHalfToEven_ge_floor y
  · unfold roundHalfToEven
    rw [← heq]
    have hr : x - (⌊x⌋ : ℚ) ≤ y - (⌊x⌋ : ℚ) := by linarith
    split_ifs <;> first | omega | linarith

theorem pyRound_mono (nd : ℕ) {x y : ℚ} (h : x ≤ y) :
    pyRound nd x ≤ pyRound nd y := by
  unfold pyRound
  have hp : (0 : ℚ) < (10 : ℚ) ^ nd := by positivity
  have h2 : x * (10 : ℚ) ^ nd ≤ y * (10 : ℚ) ^ nd := by nlinarith
  have h3 := roundHalfToEven_mono h2
  have hcast : ((roundHalfToEven (x * (10 : ℚ) ^ nd)) : ℚ)
      ≤ ((roundHalfToEven (y * (10 : ℚ) ^ nd)) : ℚ) := by exact_mod_cast h3
  exact div_le_div_of_nonneg_right hcast hp.le

theorem pyRound_zero (nd : ℕ) : pyRound nd 0 = 0 := by
  unfold pyRound
  rw [zero_mul]
  have h0 : roundHalfToEven ((0 : ℤ) : ℚ) = 0 := roundHalfToEven_intCast 0
  simp only [Int.cast_zero] at h0
  rw [h0]
  simp

theorem pyRound_nonneg (nd : ℕ) {x : ℚ} (h : 0 ≤ x) : 0 ≤ pyRound nd x := by
  have := pyRound_mono nd h
  rwa [pyRound_zero] at this

namespace RateLimiter

theorem canAct_fst (rl : RateLimiter) (now : ℚ) :
    (rl.canAct now).1 = decide (rl.hasCapacity now) := rfl

/-- Pruning at the same instant does not change the in-window count. -/
theorem windowCount_prune (rl : RateLimiter) (now : ℚ) :
    (rl.prune now).windowCount now = rl.windowCount now := by
  simp [prune, windowCount, List.filter_filter]

theorem canAct_snd (rl : RateLimiter) (now : ℚ) :
    (rl.canAct now).2 = rl.prune now := rfl

theorem guardedStep_eq (rl : RateLimiter) (t : ℚ) :
    guardedStep rl t
      = if rl.hasCapacity t then (rl.prune t).record t else rl.prune t := by
  simp only [guardedStep, canAct_fst, canAct_snd]
  by_cases h : rl.hasCapacity t <;> simp [h]

theorem windowCount_mono (rl : RateLimiter) {t u : ℚ} (h : t ≤ u) :
    rl.windowCount u ≤ rl.windowCount t := by
  unfold windowCount
  apply List.Sublist.length_le
  apply List.monotone_filter_right
  intro a ha
  simp only [decide_eq_true_eq] at ha ⊢
  linarith

theorem bounded_mono {rl : RateLimiter} {t u : ℚ} (h : rl.bounded t) (htu : t ≤ u) :
    rl.bounded u := by
  obtain ⟨h1, h2⟩ := h
  refine ⟨fun s hs => le_trans (h1 s hs) htu, ?_⟩
  have := rl.windowCount_mono htu
  omega

theorem guardedStep_bounded {rl : RateLimiter} {t : ℚ} (h : rl.bounded t) :
    (guardedStep rl t).bounded t := by
  obtain ⟨h1, h2⟩ := h
  rw [guardedStep_eq]
  by_cases hcap : rl.hasCapacity t
  · rw [if_pos hcap]
    refine ⟨?_, ?_⟩
    · intro s hs
      rcases List.mem_append.mp hs with hs | hs
      · exact h1 s (List.mem_of_mem_filter hs)
      · rw [List.mem_singleton] at hs; exact le_of_eq hs
    · have key : (((rl.prune t).record t).windowCount t : ℤ)
          ≤ (rl.windowCount t : ℤ) + 1 := by
        unfold record prune windowCount
        simp only [List.filter_append, List.length_append, List.filter_filter,
          Bool.and_self]
        have hone : (List.filter (fun s => decide (t - rl.window_seconds < s)) [t]).length
            ≤ 1 := by
          simpa using List.length_filter_le (fun s => decide (t - rl.window_seconds < s)) [t]
        push_cast
        omega
      have hcap2 : (rl.windowCount t : ℤ) < rl.max_actions := hcap
      have hmax : (((rl.prune t).record t)).max_actions = rl.max_actions := rfl
      rw [hmax]
      omega
  · rw [if_neg hcap]
    refine ⟨?_, ?_⟩
    · intro s hs
      exact h1 s (List.mem_of_mem_filter hs)
    · have hpr : (rl.prune t).windowCount t = rl.windowCount t := rl.windowCount_prune t
      have hmax : (rl.prune t).max_actions = rl.max_actions := rfl
      rw [hpr, hmax]
      exact h2

theorem guardedStep_max (rl : RateLimiter) (t : ℚ) :
    (guardedStep rl t).max_actions = rl.max_actions := by
  rw [guardedStep_eq]
  split <;> rfl

theorem guardedRun_max :
    ∀ (ts : List ℚ) (rl : RateLimiter),
      (guardedRun rl ts).max_actions = rl.max_actions
  | [], _ => rfl
  | t :: ts, rl => by
    have h1 : guardedRun rl (t :: ts) = guardedRun (guardedStep rl t) ts := rfl
    rw [h1, guardedRun_max ts (guardedStep rl t), guardedStep_max]

theorem guardedRun_bounded :
    ∀ (ts : List ℚ) (rl : RateLimiter) (t T : ℚ),
      List.Chain' (· ≤ ·) (t :: ts) → (∀ u ∈ ts, u ≤ T) → t ≤ T →
      rl.bounded t → (guardedRun rl ts).bounded T := by
  intro ts
  induction ts with
  | nil =>
    intro rl t T _ _ htT hb
    exact bounded_mono hb htT
  | cons u us ih =>
    intro rl t T hchain hle htT hb
    have htu : t ≤ u := (List.chain'_cons.mp hchain).1
    have hchain2 : List.Chain' (· ≤ ·) (u :: us) := (List.chain'_cons.mp hchain).2
    have hbu : rl.bounded u := bounded_mono hb htu
    have hstep : (guardedStep rl u).bounded u := guardedStep_bounded hbu
    exact ih (guardedStep rl u) u T hchain2 (fun v hv => hle v (by simp [hv]))
      (hle u (by simp)) hstep

end RateLimiter

namespace SafetyMonitor

theorem recordAction_cooldown (m : SafetyMonitor) (t : ℚ) :
    (m.recordAction t).cooldown_until = m.cooldown_until := rfl

theorem recordError_cooldown (m : SafetyMonitor) (t : ℚ) :
    (m.recordError t).cooldown_until = m.cooldown_until := rfl

theorem getStats_cooldown (m : SafetyMonitor) (t : ℚ) :
    ((m.getStats t).2).cooldown_until = m.cooldown_until := rfl

theorem canAct_of_active {m : SafetyMonitor} {t : ℚ}
    (h : cooldownActive m.cooldown_until t = true) : m.canAct t = (false, m) := by
  simp [canAct, h]

theorem step_cooldown_of_not_act (m : SafetyMonitor) (op : Op)
    (h : op.isAct = false) : (step m op).cooldown_until = m.cooldown_until := by
  cases op with
  | act t => simp [Op.isAct] at h
  | recAction t => rfl
  | recError t => rfl
  | stats t => rfl

theorem run_cooldown_of_no_act (m : SafetyMonitor) (ops : List Op)
    (h : ∀ op ∈ ops, op.isAct = false) :
    (run m ops).cooldown_until = m.cooldown_until := by
  induction ops generalizing m with
  | nil => rfl
  | cons op ops ih =>
    have h1 : op.isAct = false := h op (by simp)
    have h2 : ∀ o ∈ ops, o.isAct = false := fun o ho => h o (by simp [ho])
    calc (run m (op :: ops)).cooldown_until
        = (run (step m op) ops).cooldown_until := rfl
      _ = (step m op).cooldown_until := ih (step m op) h2
      _ = m.cooldown_until := step_cooldown_of_not_act m op h1

theorem getStats_in_cooldown_none {m : SafetyMonitor} (t : ℚ)
    (h : m.cooldown_until = none) : ((m.getStats t).1).in_cooldown = false := by
  simp [getStats, currentErrorRate, h]

/-- An active cooldown deadline `c ≠ 0` survives every call made strictly
before `c`, and every `can_act` among those calls returns `false`. -/
theorem cooldownPersists (c : ℚ) (hc0 : c ≠ 0) :
    ∀ (ops : List Op) (m : SafetyMonitor), m.cooldown_until = some c →
      (∀ op ∈ ops, op.time < c) →
      (run m ops).cooldown_until = some c ∧
      ∀ b ∈ canActResults m ops, b = false := by
  intro ops
  induction ops with
  | nil =>
    intro m hm _
    exact ⟨hm, by simp [canActResults]⟩
  | cons op ops ih =>
    intro m hm hts
    have hop : op.time < c := hts op (by simp)
    have hts2 : ∀ o ∈ ops, o.time < c := fun o ho => hts o (by simp [ho])
    cases op with
    | act t =>
      have hact : cooldownActive m.cooldown_until t = true := by
        rw [hm]
        simp only [Op.time] at hop
        simp [cooldownActive, hc0, hop]
      have hca := canAct_of_active hact
      have hstep : step m (Op.act t) = m := by
        simp [step, hca]
      rw [show run m (Op.act t :: ops) = run (step m (Op.act t)) ops from rfl, hstep]
      obtain ⟨ha, hb⟩ := ih m hm hts2
      refine ⟨ha, ?_⟩
      intro b hb2
      simp only [canActResults, hstep] at hb2
      rcases List.mem_cons.mp hb2 with hb2 | hb2
      · rw [hb2, hca]
      · exact hb b hb2
    | recAction t =>
      have hcool : (step m (Op.recAction t)).cooldown_until = some c := by
        rw [step_cooldown_of_not_act m _ (by rfl)]; exact hm
      obtain ⟨ha, hb⟩ := ih (step m (Op.recAction t)) hcool hts2
      exact ⟨ha, fun b hb2 => hb b (by simpa [canActResults] using hb2)⟩
    | recError t =>
      have hcool : (step m (Op.recError t)).cooldown_until = some c := by
        rw [step_cooldown_of_not_act m _ (by rfl)]; exact hm
      obtain ⟨ha, hb⟩ := ih (step m (Op.recError t)) hcool hts2
      exact ⟨ha, fun b hb2 => hb b (by simpa [canActResults] using hb2)⟩
    | stats t =>
      have hcool : (step m (Op.stats t)).cooldown_until = some c := by
        rw [step_cooldown_of_not_act m _ (by rfl)]; exact hm
      obtain ⟨ha, hb⟩ := ih (step m (Op.stats t)) hcool hts2
      exact ⟨ha, fun b hb2 => hb b (by simpa [canActResults] using hb2)⟩

/-- The rate returned by `_current_error_rate`, written out. -/
theorem currentErrorRate_fst (m : SafetyMonitor) (now : ℚ) :
    (m.currentErrorRate now).1
      = if (m.pruneWindow m.errors now).length
            + (m.pruneWindow m.successes now).length = 0 then 0
        else ((m.pruneWindow m.errors now).length : ℚ) /
          (((m.pruneWindow m.errors now).length : ℚ)
            + ((m.pruneWindow m.successes now).length : ℚ)) := rfl

/-- The state after `_current_error_rate`: both event lists pruned. -/
theorem currentErrorRate_snd (m : SafetyMonitor) (now : ℚ) :
    (m.currentErrorRate now).2
      = { m with errors := m.pruneWindow m.errors now,
                 successes := m.pruneWindow m.successes now } := rfl

theorem canAct_true_iff (m : SafetyMonitor) (now : ℚ) :
    (m.canAct now).1 = true ↔
      (cooldownActive m.cooldown_until now = false ∧
       m.hourly.hasCapacity now ∧ m.daily.hasCapacity now ∧
       m.weekly.hasCapacity now ∧
       (m.currentErrorRate now).1 ≤ m.error_rate_threshold) := by
  by_cases hcd : cooldownActive m.cooldown_until now
  · simp [canAct, hcd]
  · by_cases hH : m.hourly.hasCapacity now
    · by_cases hD : m.daily.hasCapacity now
      · by_cases hW : m.weekly.hasCapacity now
        · by_cases hE : (m.currentErrorRate now).1 ≤ m.error_rate_threshold
          · have hnot : ¬(m.error_rate_threshold < (m.currentErrorRate now).1) :=
              not_lt.mpr hE
            simp only [currentErrorRate_fst, pruneWindow] at hE hnot
            simp [canAct, hcd, RateLimiter.canAct_fst, hH, hD, hW,
              currentErrorRate_fst, currentErrorRate_snd, pruneWindow] at hE hnot ⊢
            rw [if_neg (not_lt.mpr hE)]
            simpa using hE
          · have hlt : m.error_rate_threshold < (m.currentErrorRate now).1 :=
              not_le.mp hE
            simp only [currentErrorRate_fst, pruneWindow] at hE hlt
            simp [canAct, hcd, RateLimiter.canAct_fst, hH, hD, hW,
              currentErrorRate_fst, currentErrorRate_snd, pruneWindow] at hE hlt ⊢
            rw [if_pos hlt]
            simpa using not_le.mpr hlt
        · simp [canAct, hcd, RateLimiter.canAct_fst, hH, hD, hW]
      · simp [canAct, hcd, RateLimiter.canAct_fst, hH, hD]
    · simp [canAct, hcd, RateLimiter.canAct_fst, hH]

theorem canAct_trip (m : SafetyMonitor) (now : ℚ)
    (hcd : cooldownActive m.cooldown_until now = false)
    (hH : m.hourly.hasCapacity now) (hD : m.daily.hasCapacity now)
    (hW : m.weekly.hasCapacity now)
    (hE : m.error_rate_threshold < (m.currentErrorRate now).1) :
    (m.canAct now).1 = false ∧
    ((m.canAct now).2).cooldown_until = some (now + m.cooldown_minutes * 60) := by
  constructor
  · rw [Bool.eq_false_iff]
    intro habs
    have := (canAct_true_iff m now).mp habs
    exact absurd this.2.2.2.2 (not_le.mpr hE)
  · simp only [currentErrorRate_fst, pruneWindow] at hE
    simp [canAct, hcd, RateLimiter.canAct_fst, hH, hD, hW,
      currentErrorRate_fst, currentErrorRate_snd, pruneWindow] at hE ⊢
    rw [if_pos hE]

end SafetyMonitor

/-- Claim C3: `can_act()` returns true iff no cooldown is active, all three
sliding windows (hourly, daily, weekly) are below their caps, and the error
rate over the last `error_window_seconds` is at most `error_rate_threshold`
(the rate is 0 when there are no events, by `currentErrorRate`); whenever
the error-rate check fails, the call sets
`cooldown_until = now + cooldown_minutes*60` and returns false, and every
subsequent `can_act()` before `cooldown_until` returns false. -/
theorem claim_C3_can_act_gate (m : SafetyMonitor) (now : ℚ)
    (h0 : 0 ≤ now) (hcm : 0 < m.cooldown_minutes) :
    ((m.canAct now).1 = true ↔
      (SafetyMonitor.cooldownActive m.cooldown_until now = false ∧
       m.hourly.hasCapacity now ∧ m.daily.hasCapacity now ∧
       m.weekly.hasCapacity now ∧
       (m.currentErrorRate now).1 ≤ m.error_rate_threshold)) ∧
    (SafetyMonitor.cooldownActive m.cooldown_until now = false →
     m.hourly.hasCapacity now → m.daily.hasCapacity now →
     m.weekly.hasCapacity now →
     m.error_rate_threshold < (m.currentErrorRate now).1 →
     (m.canAct now).1 = false ∧
     ((m.canAct now).2).cooldown_until = some (now + m.cooldown_minutes * 60) ∧
     ∀ ops : List SafetyMonitor.Op,
       (∀ op ∈ ops, op.time < now + m.cooldown_minutes * 60) →
       ∀ b ∈ SafetyMonitor.canActResults ((m.canAct now).2) ops, b = false) := by
  refine ⟨SafetyMonitor.canAct_true_iff m now, ?_⟩
  intro hcd hH hD hW hE
  obtain ⟨hres, hcool⟩ := SafetyMonitor.canAct_trip m now hcd hH hD hW hE
  refine ⟨hres, hcool, ?_⟩
  intro ops hops b hb
  have hpos : 0 < now + m.cooldown_minutes * 60 := by linarith
  exact (SafetyMonitor.cooldownPersists (now + m.cooldown_minutes * 60)
    (ne_of_gt hpos) ops ((m.canAct now).2) hcool hops).2 b hb

/-- Witness for C3 at a concrete monitor and time. -/
theorem claim_C3_can_act_gate_witness :
    (0 : ℚ) ≤ 100 ∧ 0 < exampleMonitor.cooldown_minutes ∧
    (((exampleMonitor.canAct 100).1 = true ↔
      (SafetyMonitor.cooldownActive exampleMonitor.cooldown_until 100 = false ∧
       exampleMonitor.hourly.hasCapacity 100 ∧
       exampleMonitor.daily.hasCapacity 100 ∧
       exampleMonitor.weekly.hasCapacity 100 ∧
       (exampleMonitor.currentErrorRate 100).1
         ≤ exampleMonitor.error_rate_threshold)) ∧
    (SafetyMonitor.cooldownActive exampleMonitor.cooldown_until 100 = false →
     exampleMonitor.hourly.hasCapacity 100 →
     exampleMonitor.daily.hasCapacity 100 →
     exampleMonitor.weekly.hasCapacity 100 →
     exampleMonitor.error_rate_threshold
       < (exampleMonitor.currentErrorRate 100).1 →
     (exampleMonitor.canAct 100).1 = false ∧
     ((exampleMonitor.canAct 100).2).cooldown_until
       = some (100 + exampleMonitor.cooldown_minutes * 60) ∧
     ∀ ops : List SafetyMonitor.Op,
       (∀ op ∈ ops, op.time < 100 + exampleMonitor.cooldown_minutes * 60) →
       ∀ b ∈ SafetyMonitor.canActResults ((exampleMonitor.canAct 100).2) ops,
         b = false)) :=
  ⟨by norm_num, by norm_num [exampleMonitor, SafetyMonitor.init],
   claim_C3_can_act_gate exampleMonitor 100 (by norm_num)
     (by norm_num [exampleMonitor, SafetyMonitor.init])⟩

/-- Claim C10: `record_action`, `record_error` and `get_stats` never set
`cooldown_until`; a sequence free of `can_act` leaves the cooldown state
unchanged, and starting from no cooldown the monitor stays out of cooldown
no matter how high the error rate climbs. -/
theorem claim_C10_only_can_act_starts_cooldown
    (m : SafetyMonitor) (ops : List SafetyMonitor.Op)
    (h : ∀ op ∈ ops, op.isAct = false) :
    (SafetyMonitor.run m ops).cooldown_until = m.cooldown_until ∧
    (m.cooldown_until = none →
      ∀ t : ℚ, ((SafetyMonitor.run m ops).getStats t).1.in_cooldown = false) := by
  have hrun := SafetyMonitor.run_cooldown_of_no_act m ops h
  refine ⟨hrun, fun hnone t => ?_⟩
  exact SafetyMonitor.getStats_in_cooldown_none t (by rw [hrun, hnone])

/-- Witness for C10: five errors and a stats call leave no cooldown. -/
theorem claim_C10_only_can_act_starts_cooldown_witness :
    (∀ op ∈ errorBurst, op.isAct = false) ∧
    ((SafetyMonitor.run exampleMonitor errorBurst).cooldown_until
        = exampleMonitor.cooldown_until ∧
     (exampleMonitor.cooldown_until = none →
      ∀ t : ℚ,
        ((SafetyMonitor.run exampleMonitor errorBurst).getStats t).1.in_cooldown
          = false)) :=
  ⟨by decide, claim_C10_only_can_act_starts_cooldown exampleMonitor errorBurst
    (by decide)⟩

/-- Claim C7 is false as stated: `record()` appends unconditionally, so after
three `record_action()` calls against an hourly cap of 2 the window holds 3
timestamps although no `can_act()` was ever called (so none returned
false). -/
theorem claim_C7_counterexample :
    c7Monitor.hourly.max_actions = 2 ∧
    2 < ((SafetyMonitor.run c7Monitor c7Ops).hourly.windowCount 3 : ℤ) ∧
    SafetyMonitor.canActResults c7Monitor c7Ops = [] := by
  refine ⟨rfl, ?_, rfl⟩
  norm_num [c7Monitor, c7Ops, SafetyMonitor.init, SafetyMonitor.run,
    SafetyMonitor.step, SafetyMonitor.recordAction, RateLimiter.record,
    RateLimiter.windowCount, List.filter_cons]

/-- Claim C7 (amended): under the guarded protocol — each action is recorded
only when an immediately preceding `can_act()` at the same time returned
true, and call times are nondecreasing — the number of timestamps inside
the current window never exceeds `max_actions`. -/
theorem claim_C7_guarded_window_bound (maxA : ℤ) (w : ℚ) (ts : List ℚ) (T : ℚ)
    (hmax : 0 ≤ maxA) (hchain : List.Chain' (· ≤ ·) ts)
    (hle : ∀ u ∈ ts, u ≤ T) :
    ((RateLimiter.guardedRun ⟨maxA, w, []⟩ ts).windowCount T : ℤ) ≤ maxA := by
  cases ts with
  | nil =>
    simpa [RateLimiter.guardedRun, RateLimiter.windowCount] using hmax
  | cons u us =>
    have hchain2 : List.Chain' (· ≤ ·) (u :: u :: us) :=
      List.chain'_cons.mpr ⟨le_refl u, hchain⟩
    have hb : (⟨maxA, w, []⟩ : RateLimiter).bounded u := by
      refine ⟨?_, ?_⟩
      · intro s hs; simp at hs
      · simpa [RateLimiter.windowCount] using hmax
    have hres := RateLimiter.guardedRun_bounded (u :: us) ⟨maxA, w, []⟩ u T
      hchain2 hle (hle u (by simp)) hb
    have hm := RateLimiter.guardedRun_max (u :: us) (⟨maxA, w, []⟩ : RateLimiter)
    have h2 := hres.2
    rw [hm] at h2
    exact h2

/-- Witness for the amended C7 with three guarded calls. -/
theorem claim_C7_guarded_window_bound_witness :
    (0 : ℤ) ≤ 2 ∧ List.Chain' (· ≤ ·) [(1 : ℚ), 2, 3] ∧
    (∀ u ∈ [(1 : ℚ), 2, 3], u ≤ 3) ∧
    ((RateLimiter.guardedRun ⟨2, 3600, []⟩ [(1 : ℚ), 2, 3]).windowCount 3 : ℤ)
      ≤ 2 :=
  ⟨by norm_num, by norm_num [List.chain'_cons, List.chain'_singleton],
   by norm_num,
   claim_C7_guarded_window_bound 2 3600 [1, 2, 3] 3 (by norm_num)
     (by norm_num [List.chain'_cons, List.chain'_singleton]) (by norm_num)⟩

/-! ### Lemmas about the scorer -/
/-- `round(x, nd)` is the identity on exact `nd`-digit decimals. -/
theorem pyRound_eq_self (nd : ℕ) (n : ℤ) (x : ℚ)
    (h : x * (10 : ℚ) ^ nd = (n : ℚ)) : pyRound nd x = x := by
  unfold pyRound
  rw [h, roundHalfToEven_intCast]
  have hp : ((10 : ℚ) ^ nd) ≠ 0 := by positivity
  rw [div_eq_iff hp]
  linarith [h]

theorem listScore_nonneg (kws : List String) (w : ℚ) (tl : String)
    (hw : 0 ≤ w) : 0 ≤ listScore kws w tl := by
  unfold listScore
  suffices h : ∀ (l : List String) (acc : ℚ), 0 ≤ acc →
      0 ≤ l.foldl (fun acc k => if kwMatches tl k then acc + w else acc) acc by
    exact h kws 0 le_rfl
  intro l
  induction l with
  | nil => intro acc hacc; simpa using hacc
  | cons k ks ih =>
    intro acc hacc
    rw [List.foldl_cons]
    by_cases hm : kwMatches tl k
    · exact ih _ (by simp [hm]; linarith)
    · exact ih _ (by simp [hm]; linarith)

theorem calculateProductionRelevance_nonneg (text : String) :
    0 ≤ calculateProductionRelevance text := by
  unfold calculateProductionRelevance
  exact le_max_left 0 _

theorem calculateExecutiveScore_nonneg (b : Bool) (text : String) :
    0 ≤ calculateExecutiveScore b text := by
  unfold calculateExecutiveScore
  split_ifs
  · norm_num
  · show (0 : ℚ) ≤ listScore EXECUTIVE_BUSINESS_OUTCOMES 6 (pyLower text)
      + listScore EXECUTIVE_SCALE_INDICATORS 5 (pyLower text)
      + listScore EXECUTIVE_LEADERSHIP_SIGNALS 4 (pyLower text)
      + listScore EXECUTIVE_OPERATIONAL_EXCELLENCE 3 (pyLower text)
      + listScore EXECUTIVE_TEAM_ORG 3 (pyLower text)
    have h1 := listScore_nonneg EXECUTIVE_BUSINESS_OUTCOMES 6 (pyLower text)
      (by norm_num)
    have h2 := listScore_nonneg EXECUTIVE_SCALE_INDICATORS 5 (pyLower text)
      (by norm_num)
    have h3 := listScore_nonneg EXECUTIVE_LEADERSHIP_SIGNALS 4 (pyLower text)
      (by norm_num)
    have h4 := listScore_nonneg EXECUTIVE_OPERATIONAL_EXCELLENCE 3 (pyLower text)
      (by norm_num)
    have h5 := listScore_nonneg EXECUTIVE_TEAM_ORG 3 (pyLower text) (by norm_num)
    linarith

theorem calculateKeywordScore_nonneg (text : String) :
    0 ≤ calculateKeywordScore text := by
  unfold calculateKeywordScore
  show (0 : ℚ) ≤ listScore HIGH_PRIORITY_KEYWORDS 5 (pyLower text)
    + listScore MEDIUM_PRIORITY_KEYWORDS 3 (pyLower text)
    + listScore LOW_PRIORITY_KEYWORDS 1 (pyLower text)
  have h1 := listScore_nonneg HIGH_PRIORITY_KEYWORDS 5 (pyLower text) (by norm_num)
  have h2 := listScore_nonneg MEDIUM_PRIORITY_KEYWORDS 3 (pyLower text)
    (by norm_num)
  have h3 := listScore_nonneg LOW_PRIORITY_KEYWORDS 1 (pyLower text) (by norm_num)
  linarith

theorem contentTypeMultiplier_pos (ct : ContentType) :
    0 < CONTENT_TYPE_MULTIPLIERS ct := by
  cases ct <;> norm_num [CONTENT_TYPE_MULTIPLIERS]

theorem calculateFreshness_nonneg (published_at : Option String)
    (parsed : Option ℚ) (now : ℚ) :
    0 ≤ calculateFreshness published_at parsed now := by
  unfold calculateFreshness
  split_ifs with h
  · norm_num
  · cases parsed with
    | none => norm_num
    | some dt =>
      apply pyRound_nonneg
      have h1 : (1 : ℚ)/10
          ≤ max (1/10) (1 - (months_ago dt now - 1) * (1/4)) :=
        le_max_left _ _
      have h2 : (1 : ℚ)/10
          ≤ min 1 (max (1/10) (1 - (months_ago dt now - 1) * (1/4))) :=
        le_min (by norm_num) h1
      linarith

/-- The `final_score` field of `ContentFilter.score`, by computation. -/
theorem ContentFilter.score_final_score (cf : ContentFilter)
    (title content url source author : String) (published_at : Option String)
    (parsed : Option ℚ) (now : ℚ) :
    (cf.score title content url source author published_at parsed now).final_score
      = finalScoreFormula
          (calculateProductionRelevance (title ++ " " ++ content))
          (calculateExecutiveScore cf.enable_executive_filter
            (title ++ " " ++ content))
          (calculateKeywordScore (title ++ " " ++ content))
          (CONTENT_TYPE_MULTIPLIERS
            (classifyContentType (title ++ " " ++ content) url))
          (calculateFreshness published_at parsed now) := rfl

/-! ### Claim theorems about the scorer -/
/-- Claim C6: the freshness multiplier is 1.0 when `published_at` is absent
or unparseable; otherwise it is
`max(0.1, min(1.0, 1 - 0.25*(age_months - 1)))` rounded to 4 decimals with
`age_months` the non-negative age in 30-day months, and for every age
greater than 6 months it is exactly 0.1. -/
theorem claim_C6_freshness_multiplier (published_at : Option String)
    (parsed : Option ℚ) (now : ℚ) :
    ((published_at = none ∨ published_at = some "" ∨ parsed = none) →
      calculateFreshness published_at parsed now = 1) ∧
    (∀ dt : ℚ, parsed = some dt →
      published_at ≠ none → published_at ≠ some "" →
      (calculateFreshness published_at parsed now
          = pyRound 4
              (max (1/10) (min 1 (1 - (months_ago dt now - 1) * (1/4)))) ∧
       0 ≤ months_ago dt now ∧
       (6 < months_ago dt now →
         calculateFreshness published_at parsed now = 1/10))) := by
  constructor
  · intro h
    unfold calculateFreshness
    rcases h with h | h | h
    · simp [h]
    · simp [h]
    · by_cases hp : published_at = none ∨ published_at = some ""
      · simp [hp]
      · simp [hp, h]
  · intro dt hdt h1 h2
    have hp : ¬(published_at = none ∨ published_at = some "") := by tauto
    have hval : calculateFreshness published_at parsed now
        = pyRound 4
            (min 1 (max (1/10) (1 - (months_ago dt now - 1) * (1/4)))) := by
      unfold calculateFreshness
      rw [if_neg hp, hdt]
    have hswap :
        min 1 (max (1/10) (1 - (months_ago dt now - 1) * (1/4)))
          = max (1/10) (min 1 (1 - (months_ago dt now - 1) * (1/4))) := by
      rw [max_min_distrib_left]
      norm_num
    refine ⟨by rw [hval, hswap], le_max_left _ _, ?_⟩
    intro h6
    have hz : 1 - (months_ago dt now - 1) * (1/4) ≤ 1/10 := by linarith
    have hmax : max (1/10 : ℚ) (1 - (months_ago dt now - 1) * (1/4)) = 1/10 :=
      max_eq_left hz
    have hmin : min (1 : ℚ) (1/10) = 1/10 := min_eq_right (by norm_num)
    rw [hval, hmax, hmin]
    exact pyRound_eq_self 4 1000 (1/10) (by norm_num)

/-- Witness for C6: a parsed timestamp eight 30-day months old gets the
floor multiplier 0.1. -/
theorem claim_C6_freshness_multiplier_witness :
    calculateFreshness (some "x") (some 0) (8 * (30 * 86400)) = 1/10 := by
  have h := (claim_C6_freshness_multiplier (some "x") (some 0)
    (8 * (30 * 86400))).2 0 rfl (by simp) (by simp)
  exact h.2.2 (by norm_num [months_ago])

/-- Claim C8: every score produced by `ContentFilter.score` has
`final_score ≥ 0`, and the final-score formula is monotone nondecreasing in
the production score when the two multipliers are nonnegative (they always
are: the type multiplier is positive and the freshness multiplier
nonnegative). -/
theorem claim_C8_final_score_nonneg_monotone :
    (∀ (cf : ContentFilter) (title content url source author : String)
        (published_at : Option String) (parsed : Option ℚ) (now : ℚ),
      0 ≤ (cf.score title content url source author published_at parsed
        now).final_score) ∧
    (∀ production1 production2 executive keyword tm fm : ℚ,
      0 ≤ tm → 0 ≤ fm → production1 ≤ production2 →
      finalScoreFormula production1 executive keyword tm fm
        ≤ finalScoreFormula production2 executive keyword tm fm) := by
  constructor
  · intro cf title content url source author published_at parsed now
    rw [ContentFilter.score_final_score]
    have hP := calculateProductionRelevance_nonneg (title ++ " " ++ content)
    have hE := calculateExecutiveScore_nonneg cf.enable_executive_filter
      (title ++ " " ++ content)
    have hK := calculateKeywordScore_nonneg (title ++ " " ++ content)
    have hT := (contentTypeMultiplier_pos
      (classifyContentType (title ++ " " ++ content) url)).le
    have hF := calculateFreshness_nonneg published_at parsed now
    unfold finalScoreFormula
    apply pyRound_nonneg
    have hb1 : (0 : ℚ) ≤ calculateProductionRelevance (title ++ " " ++ content)
        * (30/100) := mul_nonneg hP (by norm_num)
    have hb2 : (0 : ℚ) ≤ calculateExecutiveScore cf.enable_executive_filter
        (title ++ " " ++ content) * (35/100) := mul_nonneg hE (by norm_num)
    have hb3 : (0 : ℚ) ≤ calculateKeywordScore (title ++ " " ++ content)
        * (35/100) := mul_nonneg hK (by norm_num)
    exact mul_nonneg (mul_nonneg (by linarith) hT) hF
  · intro p1 p2 e k tm fm htm hfm hp
    unfold finalScoreFormula
    apply pyRound_mono
    have h1 : p1 * (30/100) + e * (35/100) + k * (35/100)
        ≤ p2 * (30/100) + e * (35/100) + k * (35/100) := by linarith
    have h2 := mul_le_mul_of_nonneg_right h1 htm
    exact mul_le_mul_of_nonneg_right h2 hfm

/-- Witness for C8: a concrete scored item and a concrete monotone step. -/
theorem claim_C8_final_score_nonneg_monotone_witness :
    0 ≤ (({} : ContentFilter).score "How we scaled" "production inference"
      "" "" "" none none 0).final_score ∧
    finalScoreFormula 0 2 3 1 1 ≤ finalScoreFormula 1 2 3 1 1 :=
  ⟨claim_C8_final_score_nonneg_monotone.1 {} "How we scaled"
    "production inference" "" "" "" none none 0,
   claim_C8_final_score_nonneg_monotone.2 0 1 2 3 1 1 (by norm_num)
     (by norm_num) (by norm_num)⟩

/-! ### Claim theorems about the reranker -/
/-- Claim C1 fails on the code: `extract_features` raises `AttributeError`
on every `ScoredContent` (no `to_feature_dict` exists), so a trained
reranker's `rerank` always takes the exception fallback: it returns the
items sorted descending by their existing rule-based `final_score`, and no
item's `final_score` is reassigned from the model probability. -/
theorem claim_C1_rerank_trained_falls_back (r : FeedReranker)
    (items : List ScoredContent) :
    (∀ item : ScoredContent, (extract_features item).isOk = false) ∧
    r.rerank items = List.insertionSort scoreGe items ∧
    (r.rerank items).Perm items ∧
    List.Sorted scoreGe (r.rerank items) := by
  have heq : r.rerank items = List.insertionSort scoreGe items := by
    unfold FeedReranker.rerank
    cases hm : r.model with
    | none => rfl
    | some model =>
      cases items with
      | nil => rfl
      | cons a l =>
        have hex : List.mapM.loop extract_features (a :: l) []
            = (Except.error
              "AttributeError: ScoredContent object has no attribute to_feature_dict"
              : Except String (List FeatureDict)) := rfl
        simp [hex]
  refine ⟨fun item => rfl, heq, ?_, ?_⟩
  · rw [heq]; exact List.perm_insertionSort scoreGe items
  · rw [heq]; exact List.sorted_insertionSort scoreGe items

/-- Claim C9: with fewer usable labelled rows than `min_training_samples`,
`train` returns the `insufficient_data` record carrying the sample count and
the minimum, performs no fitting, writes nothing to disk, and leaves the
in-memory model (hence `is_trained`) unchanged. -/
theorem claim_C9_train_insufficient_data (r : FeedReranker) (disk : ModelDisk)
    (training_data : List DBRow) (feedback_map : List (String × String))
    (fit : List FeatureDict → List ℕ → CatBoostModel × List (String × ℚ))
    (h : (usableTraining training_data feedback_map).length
      < r.min_training_samples) :
    r.train disk training_data feedback_map fit
      = (.insufficient_data (usableTraining training_data feedback_map).length
          r.min_training_samples, r, disk) ∧
    (r.train disk training_data feedback_map fit).2.1.is_trained
      = r.is_trained := by
  have hlen : ((usableTraining training_data feedback_map).map
      (fun p => p.2)).length < r.min_training_samples := by
    rwa [List.length_map]
  have heq : r.train disk training_data feedback_map fit
      = (.insufficient_data (usableTraining training_data feedback_map).length
          r.min_training_samples, r, disk) := by
    unfold FeedReranker.train
    rw [if_pos hlen, List.length_map]
  exact ⟨heq, by rw [heq]⟩

/-- Witness for C9: two labelled rows against the default minimum of 20. -/
theorem claim_C9_train_insufficient_data_witness :
    (usableTraining c9Rows []).length < c9Reranker.min_training_samples ∧
    (c9Reranker.train c9Disk c9Rows [] c9Fit
      = (.insufficient_data (usableTraining c9Rows []).length
          c9Reranker.min_training_samples, c9Reranker, c9Disk) ∧
     (c9Reranker.train c9Disk c9Rows [] c9Fit).2.1.is_trained
       = c9Reranker.is_trained) :=
  ⟨by decide, claim_C9_train_insufficient_data c9Reranker c9Disk c9Rows []
    c9Fit (by decide)⟩

/-! ### Claim theorems about the store -/
/-- Claim C2 is right about the intended semantics but the code cannot
deliver it: the schema `Database._init_schema` runs creates no
`user_feedback` table, so on a freshly initialised database every
`FeedbackCRUD.set_feedback` (and `get_feedback_map`) raises
`sqlite3.OperationalError: no such table: user_feedback` instead of
recording the label. -/
theorem claim_C2_set_feedback_no_table :
    Database.init.user_feedback = none ∧
    (∀ (feed_item_id : ℕ) (item_hash label now : String),
      FeedbackCRUD.set_feedback Database.init feed_item_id item_hash label now
        = .error "no such table: user_feedback") ∧
    FeedbackCRUD.get_feedback_map Database.init
      = .error "no such table: user_feedback" :=
  ⟨rfl, fun _ _ _ _ => rfl, rfl⟩

/-- Claim C5: upserting an `item_hash` already present leaves the row count
unchanged and rewrites only `final_score` and `fetched_at` of the matching
row; every other stored field of every row keeps its value. -/
theorem claim_C5_upsert_existing_frame (db : Database)
    (tbl : List FeedItemRow) (a : UpsertArgs) (nextId : ℕ) (now : String)
    (htbl : db.feed_items = some tbl)
    (hmem : tbl.any (fun r => r.item_hash = a.item_hash) = true) :
    ∃ tbl2 : List FeedItemRow,
      FeedItemCRUD.upsert db a nextId now
        = .ok { db with feed_items := some tbl2 } ∧
      FeedItemCRUD.count { db with feed_items := some tbl2 } = .ok tbl.length ∧
      tbl2.length = tbl.length ∧
      ∀ i (hi : i < tbl.length), ∃ hi2 : i < tbl2.length,
        (tbl2.get ⟨i, hi2⟩).item_hash = (tbl.get ⟨i, hi⟩).item_hash ∧
        (tbl2.get ⟨i, hi2⟩).title = (tbl.get ⟨i, hi⟩).title ∧
        (tbl2.get ⟨i, hi2⟩).content = (tbl.get ⟨i, hi⟩).content ∧
        (tbl2.get ⟨i, hi2⟩).url = (tbl.get ⟨i, hi⟩).url ∧
        (tbl2.get ⟨i, hi2⟩).source_name = (tbl.get ⟨i, hi⟩).source_name ∧
        (tbl2.get ⟨i, hi2⟩).source_category
          = (tbl.get ⟨i, hi⟩).source_category ∧
        (tbl2.get ⟨i, hi2⟩).author = (tbl.get ⟨i, hi⟩).author ∧
        (tbl2.get ⟨i, hi2⟩).published_at = (tbl.get ⟨i, hi⟩).published_at ∧
        (tbl2.get ⟨i, hi2⟩).production_score
          = (tbl.get ⟨i, hi⟩).production_score ∧
        (tbl2.get ⟨i, hi2⟩).executive_score
          = (tbl.get ⟨i, hi⟩).executive_score ∧
        (tbl2.get ⟨i, hi2⟩).keyword_score = (tbl.get ⟨i, hi⟩).keyword_score ∧
        (tbl2.get ⟨i, hi2⟩).content_type = (tbl.get ⟨i, hi⟩).content_type ∧
        (tbl2.get ⟨i, hi2⟩).matched_keywords
          = (tbl.get ⟨i, hi⟩).matched_keywords ∧
        (tbl2.get ⟨i, hi2⟩).matched_categories
          = (tbl.get ⟨i, hi⟩).matched_categories ∧
        (tbl2.get ⟨i, hi2⟩).saved_to_library
          = (tbl.get ⟨i, hi⟩).saved_to_library ∧
        ((tbl.get ⟨i, hi⟩).item_hash = a.item_hash →
          (tbl2.get ⟨i, hi2⟩).final_score = a.final_score ∧
          (tbl2.get ⟨i, hi2⟩).fetched_at = now) ∧
        ((tbl.get ⟨i, hi⟩).item_hash ≠ a.item_hash →
          tbl2.get ⟨i, hi2⟩ = tbl.get ⟨i, hi⟩) := by
  refine ⟨tbl.map (fun r =>
    if r.item_hash = a.item_hash then
      { r with final_score := a.final_score, fetched_at := now }
    else r), ?_, ?_, ?_, ?_⟩
  · unfold FeedItemCRUD.upsert
    rw [htbl]
    simp only [hmem, if_pos]
  · unfold FeedItemCRUD.count
    simp [List.length_map]
  · simp
  · intro i hi
    have hi2 : i < (tbl.map (fun r =>
        if r.item_hash = a.item_hash then
          { r with final_score := a.final_score, fetched_at := now }
        else r)).length := by simpa using hi
    refine ⟨hi2, ?_⟩
    rw [List.get_map]
    by_cases hcase : tbl[i].item_hash = a.item_hash <;> simp [hcase]

/-- Witness for C5: re-upserting the stored hash with a new score. -/
theorem claim_C5_upsert_existing_frame_witness :
    c5Db.feed_items = some
      [{ id := 1, item_hash := "deadbeefdeadbeef", title := "Original",
         content := "body", url := "https://e.com", final_score := 10,
         fetched_at := "2025-01-01" }] ∧
    ([({ id := 1, item_hash := "deadbeefdeadbeef", title := "Original",
         content := "body", url := "https://e.com", final_score := 10,
         fetched_at := "2025-01-01" } : FeedItemRow)].any
      (fun r => r.item_hash
        = ({ item_hash := "deadbeefdeadbeef", title := "Changed",
             final_score := 20 } : UpsertArgs).item_hash) = true) ∧
    ∃ tbl2 : List FeedItemRow,
      FeedItemCRUD.upsert c5Db
          { item_hash := "deadbeefdeadbeef", title := "Changed",
            final_score := 20 } 2 "2025-02-02"
        = .ok { c5Db with feed_items := some tbl2 } ∧
      FeedItemCRUD.count { c5Db with feed_items := some tbl2 } = .ok 1 ∧
      tbl2.length = 1 :=
  by
  have h := claim_C5_upsert_existing_frame c5Db
    [{ id := 1, item_hash := "deadbeefdeadbeef", title := "Original",
       content := "body", url := "https://e.com", final_score := 10,
       fetched_at := "2025-01-01" }]
    { item_hash := "deadbeefdeadbeef", title := "Changed", final_score := 20 }
    2 "2025-02-02" rfl (by decide)
  obtain ⟨tbl2, h1, h2, h3, _⟩ := h
  exact ⟨rfl, by decide, tbl2, h1, h2, h3⟩

/-- Claim C4 is false as stated: two sources contributing the same article
(equal title and url, hence equal `item_hash`) both survive `fetch_all`;
nothing in the batch path drops later occurrences of a hash. -/
theorem claim_C4_counterexample :
    c4ItemA.item_hash = c4ItemB.item_hash ∧
    RSSAggregator.fetch_all [[c4ItemA], [c4ItemB]] 20 = [c4ItemA, c4ItemB] ∧
    1 < (RSSAggregator.fetch_all [[c4ItemA], [c4ItemB]] 20).countP
      (fun r => r.item_hash = c4ItemA.item_hash) := by
  have hh : c4ItemA.item_hash = c4ItemB.item_hash := rfl
  have hfa : RSSAggregator.fetch_all [[c4ItemA], [c4ItemB]] 20
      = [c4ItemA, c4ItemB] := rfl
  refine ⟨hh, hfa, ?_⟩
  rw [hfa]
  simp [List.countP_cons, hh.symm]

/-- Claim C4 (amended): within a batch no deduplication by `item_hash`
occurs — `fetch_all` returns the concatenation of the per-feed lists (each
truncated to `max_items_per_feed`), so the number of returned items with a
given hash is the sum of the per-feed counts; a single item per hash is
enforced only later, by the store's upsert. -/
theorem claim_C4_fetch_all_keeps_duplicates
    (sourceResults : List (List FeedItem)) (max_items_per_feed : ℕ)
    (h : String) :
    (RSSAggregator.fetch_all sourceResults max_items_per_feed).countP
        (fun r => r.item_hash = h)
      = (sourceResults.map (fun items =>
          (items.take max_items_per_feed).countP
            (fun r => r.item_hash = h))).sum := by
  unfold RSSAggregator.fetch_all RSSAggregator.fetch_feed
  induction sourceResults with
  | nil => rfl
  | cons s ss ih =>
    simp only [List.map_cons, List.flatten_cons, List.countP_append,
      List.sum_cons]
    rw [ih]

end AutoVanityFair
